import Mathlib

/-!
Verification development for the CarConnectivity HomeKit plugin.

The definitions below are a shallow embedding of the plugin's accessory
identity store and reconciliation engine
(`src/carconnectivity_plugins/homekit/accessories/bridge.py`), of the
shared fault/countdown timer helpers
(`accessories/generic_accessory.py`, `accessories/climatization.py`,
`accessories/charging.py`), and of the per-capability characteristic
handlers (`accessories/locking_system.py`, `accessories/charging.py`,
`accessories/flashing.py`, `accessories/window_heating.py`).

Python dictionaries are embedded as association lists with dict update
semantics (replace in place, insert at the end); integers as `Int`;
JSON-style heterogeneous values as the `ConfigValue` sum type.
-/

set_option autoImplicit false

namespace CCHomekit

/-! ### Association lists with Python-dict update semantics -/

/-- Lookup in an association list (first binding wins, as in a dict that
never holds duplicate keys). -/
def alGet {κ α : Type} [DecidableEq κ] : List (κ × α) → κ → Option α
  | [], _ => none
  | (k2, v) :: rest, k => if k2 = k then some v else alGet rest k

/-- Dict assignment `d[k] = v`: replace the binding in place if the key is
present, otherwise append the new binding at the end (insertion order). -/
def alSet {κ α : Type} [DecidableEq κ] : List (κ × α) → κ → α → List (κ × α)
  | [], k, v => [(k, v)]
  | (k2, v2) :: rest, k, v =>
    if k2 = k then (k, v) :: rest else (k2, v2) :: alSet rest k v

/-! ### Identity store (`CarConnectivityBridge` configuration state) -/

/-- A JSON value stored in the accessory configuration document. -/
inductive ConfigValue where
  | num (n : Int)
  | str (s : String)
  | strs (l : List String)
deriving DecidableEq, Repr

/-- One accessory's configuration entry: a JSON object. -/
abbrev ConfigEntry := List (String × ConfigValue)

/-- The bridge's identity-store state: the `__accessory_config` dictionary
(keyed by `"VIN-IdStr"` identifiers) and the `next_aid` counter. -/
structure BridgeState where
  accessoryConfig : List (String × ConfigEntry)
  next_aid : Int
deriving DecidableEq, Repr

/-- The identifier string `f'{vin}-{id_str}'` used throughout `bridge.py`. -/
def identifierOf (vin id_str : String) : String := vin ++ "-" ++ id_str

/-- `CarConnectivityBridge.get_existing_aid`: the stored aid for
`(id_str, vin)` if the entry exists and carries a (non-null, integer)
`aid` field, else `None`. -/
def get_existing_aid (st : BridgeState) (id_str vin : String) : Option Int :=
  match alGet st.accessoryConfig (identifierOf vin id_str) with
  | none => none
  | some entry =>
    match alGet entry "aid" with
    | some (ConfigValue.num n) => some n
    | _ => none

/-- `CarConnectivityBridge.select_aid`: reuse the recorded aid if present;
otherwise hand out `next_aid`, bump the counter and record the assignment
(updating an existing partial entry in place, else creating a fresh one). -/
def select_aid (st : BridgeState) (id_str vin : String) : Int × BridgeState :=
  match get_existing_aid st id_str vin with
  | some aid => (aid, st)
  | none =>
    let identifier := identifierOf vin id_str
    let new_aid := st.next_aid
    let entry :=
      match alGet st.accessoryConfig identifier with
      | some e => alSet e "aid" (ConfigValue.num new_aid)
      | none => [("aid", ConfigValue.num new_aid)]
    (new_aid,
      { accessoryConfig := alSet st.accessoryConfig identifier entry
        next_aid := st.next_aid + 1 })

/-- `CarConnectivityBridge.set_config_item`: store a metadata field for the
accessory entry.  Note that the source increments `next_aid` at the end of
this method as well. -/
def set_config_item (st : BridgeState) (id_str vin config_key : String) (item : ConfigValue) :
    BridgeState :=
  let identifier := identifierOf vin id_str
  let entry :=
    match alGet st.accessoryConfig identifier with
    | some e => alSet e config_key item
    | none => [(config_key, item)]
  { accessoryConfig := alSet st.accessoryConfig identifier entry
    next_aid := st.next_aid + 1 }

/-- `CarConnectivityBridge.get_config_item`. -/
def get_config_item (st : BridgeState) (id_str vin config_key : String) : Option ConfigValue :=
  match alGet st.accessoryConfig (identifierOf vin id_str) with
  | none => none
  | some entry => alGet entry config_key

/-! ### Loading the store (`read_config` and the `__init__` placeholder loop) -/

/-- The counter recomputation inside `CarConnectivityBridge.read_config`:
for every entry carrying an `aid` field, raise `next_aid` to `aid + 1`
whenever that exceeds the current counter.  (An `aid` field holding a
non-integer would make the Python comparison raise; such files are outside
the persisted format and excluded by `WellFormedFile` below.) -/
def read_config_next_aid (entries : List (String × ConfigEntry)) (next : Int) : Int :=
  List.foldl
    (fun acc kv =>
      match alGet kv.snd "aid" with
      | some (ConfigValue.num n) => if n + 1 > acc then n + 1 else acc
      | _ => acc)
    next entries

/-- A persisted document in the format the plugin itself writes: every
`aid` field, when present, holds an integer. -/
def WellFormedFile (entries : List (String × ConfigEntry)) : Prop :=
  ∀ p ∈ entries, ∀ v, alGet p.snd "aid" = some v → ∃ n, v = ConfigValue.num n

/-! ### Registered accessories (the pyhap `self.accessories` registry) -/

/-- The concrete accessory classes that can sit in the bridge's registry. -/
inductive AccessoryKind where
  | dummy
  | climatization
  | charging
  | chargingPlug
  | outsideTemperature
  | flashingLight
  | locking
  | windowHeating
deriving DecidableEq, Repr

/-- pyhap accessory categories, as imported from `pyhap.const` by the
accessory modules. -/
def categoryOf : AccessoryKind → Int
  | AccessoryKind.dummy => 1                -- CATEGORY_OTHER
  | AccessoryKind.climatization => 21       -- CATEGORY_AIR_CONDITIONER
  | AccessoryKind.charging => 7             -- CATEGORY_OUTLET
  | AccessoryKind.chargingPlug => 10        -- CATEGORY_SENSOR
  | AccessoryKind.outsideTemperature => 10  -- CATEGORY_SENSOR
  | AccessoryKind.flashingLight => 5        -- CATEGORY_LIGHTBULB
  | AccessoryKind.locking => 6              -- CATEGORY_DOOR_LOCK
  | AccessoryKind.windowHeating => 8        -- CATEGORY_SWITCH

/-- Full bridge state: identity store, accessory registry keyed by aid,
and counters for the externally visible calls the reconciler makes:
`driver.config_changed()` (host notification) and `persist_config()`
(identity-store persistence). -/
structure BridgeFull where
  config : BridgeState
  accessories : List (Int × AccessoryKind)
  notifyCalls : Nat
  persistCalls : Nat
deriving DecidableEq, Repr

/-- The `__init__` placeholder loop: one `DummyAccessory` per stored entry
at `accessory['aid']`.  An entry without an integer `aid` makes the Python
loop raise (`KeyError`), modelled as `none`. -/
def init_placeholders (entries : List (String × ConfigEntry)) :
    Option (List (Int × AccessoryKind)) :=
  List.foldl
    (fun acc kv =>
      match acc with
      | none => none
      | some reg =>
        match alGet kv.snd "aid" with
        | some (ConfigValue.num n) => some (alSet reg n AccessoryKind.dummy)
        | _ => none)
    (some []) entries

/-- `CarConnectivityBridge.__init__` restricted to the identity-store and
registry setup: `next_aid` starts at 100, a missing file
(`FileNotFoundError`) is swallowed leaving the store empty, and a present
file is loaded by `read_config` followed by the placeholder loop. -/
def bridge_init (file : Option (List (String × ConfigEntry))) : Option BridgeFull :=
  match file with
  | none =>
    some { config := { accessoryConfig := [], next_aid := 100 }
           accessories := [], notifyCalls := 0, persistCalls := 0 }
  | some entries =>
    match init_placeholders entries with
    | none => none
    | some reg =>
      some { config := { accessoryConfig := entries
                         next_aid := read_config_next_aid entries 100 }
             accessories := reg, notifyCalls := 0, persistCalls := 0 }

/-! ### Persistence (`persist_config`) -/

/-- Outcome of the attempted JSON write in `persist_config`. -/
inductive WriteOutcome where
  | ok
  | valueError (msg : String)
  | osError (msg : String)
deriving DecidableEq, Repr

/-- Observable result of one `persist_config` call. -/
structure PersistResult where
  raised : Bool
  loggedFailure : Bool
  store : BridgeState
deriving DecidableEq, Repr

/-- `CarConnectivityBridge.persist_config`: guarded by a configured file
path; the `try` block catches `ValueError` only, so an operating-system
error raised by `open`/`write` propagates to the caller.  The in-memory
store is never modified by this method. -/
def persist_config (st : BridgeState) (fileConfigured : Bool) (outcome : WriteOutcome) :
    PersistResult :=
  if fileConfigured then
    match outcome with
    | WriteOutcome.ok => { raised := false, loggedFailure := false, store := st }
    | WriteOutcome.valueError _ => { raised := false, loggedFailure := true, store := st }
    | WriteOutcome.osError _ => { raised := true, loggedFailure := false, store := st }
  else { raised := false, loggedFailure := false, store := st }

/-! ### The vehicle snapshot read by `CarConnectivityBridge.update` -/

/-- A string-valued vehicle attribute with its enabled flag. -/
structure CCAttr where
  enabled : Bool
  value : Option String
deriving DecidableEq, Repr

/-- The `vehicle.software` sub-object. -/
structure CCSoftware where
  enabled : Bool
  version : Option CCAttr
deriving DecidableEq, Repr

/-- A capability sub-object of which `update` only reads presence and the
enabled flag (`climatization`, `charging`, `outside_temperature`,
`window_heatings`). -/
structure Capability where
  enabled : Bool
deriving DecidableEq, Repr

/-- A commands dictionary; `update` only tests membership of a name. -/
structure CommandsDict where
  names : List String
deriving DecidableEq, Repr

/-- The `vehicle.doors` sub-object as read by `update`. -/
structure CCDoors where
  commands : Option CommandsDict
deriving DecidableEq, Repr

/-- The slice of a `GenericVehicle` / `ElectricVehicle` snapshot that the
reconciliation pass reads. -/
structure Vehicle where
  enabled : Bool
  vin : CCAttr
  manufacturer : CCAttr
  name : CCAttr
  model : CCAttr
  software : Option CCSoftware
  isElectric : Bool
  electricDriveLevelEnabled : Bool
  climatization : Option Capability
  charging : Option Capability
  outside_temperature : Option Capability
  commands : Option CommandsDict
  doors : Option CCDoors
  window_heatings : Option Capability
deriving DecidableEq, Repr

/-- Per-capability data of one `update` block: the identity-store id
string, the concrete accessory class installed, the enablement test of the
source block's guard, and the category/services recorded into the store. -/
structure CapSpec where
  idStr : String
  kind : AccessoryKind
  available : Vehicle → Bool
  category : Int
  services : Vehicle → List String

/-- Service display names accumulated by the accessory constructors:
pyhap's base accessory adds `AccessoryInformation`, the constructor
preloads its main service, and `add_soc_characteristic` appends a
`BatteryService` for an electric vehicle with an enabled drive level. -/
def batteryServices (v : Vehicle) : List String :=
  if v.isElectric && v.electricDriveLevelEnabled then ["BatteryService"] else []

def climatizationSpec : CapSpec :=
  { idStr := "Climatization", kind := AccessoryKind.climatization
    available := fun v => match v.climatization with
      | some c => c.enabled
      | none => false
    category := 21
    services := fun v => ["AccessoryInformation", "Thermostat"] ++ batteryServices v }

def chargingSpec : CapSpec :=
  { idStr := "Charging", kind := AccessoryKind.charging
    available := fun v => v.isElectric && (match v.charging with
      | some c => c.enabled
      | none => false)
    category := 7
    services := fun v => ["AccessoryInformation", "Outlet"] ++ batteryServices v }

def chargingPlugSpec : CapSpec :=
  { idStr := "ChargingPlug", kind := AccessoryKind.chargingPlug
    available := fun v => v.isElectric && (match v.charging with
      | some c => c.enabled
      | none => false)
    category := 10
    services := fun _ => ["AccessoryInformation", "ContactSensor"] }

def outsideTemperatureSpec : CapSpec :=
  { idStr := "OutsideTemperature", kind := AccessoryKind.outsideTemperature
    available := fun v => match v.outside_temperature with
      | some c => c.enabled
      | none => false
    category := 10
    services := fun _ => ["AccessoryInformation", "TemperatureSensor"] }

def flashingLightSpec : CapSpec :=
  { idStr := "FlashingLight", kind := AccessoryKind.flashingLight
    available := fun v => match v.commands with
      | some cs => cs.names.contains "honk-flash"
      | none => false
    category := 5
    services := fun _ => ["AccessoryInformation", "Lightbulb"] }

def lockingSpec : CapSpec :=
  { idStr := "Locking", kind := AccessoryKind.locking
    available := fun v => match v.doors with
      | some d => match d.commands with
        | some cs => cs.names.contains "lock-unlock"
        | none => false
      | none => false
    category := 6
    services := fun _ => ["AccessoryInformation", "LockMechanism"] }

/-- The capability blocks of `CarConnectivityBridge.update`, in source
order.  `window_heating.py` defines a `WindowHeatingAccessory`, but no
block of `update` instantiates it. -/
def capSpecs : List CapSpec :=
  [climatizationSpec, chargingSpec, chargingPlugSpec,
   outsideTemperatureSpec, flashingLightSpec, lockingSpec]

/-- The third disjunct of an `update` block's guard: there is no recorded
aid, no accessory at the recorded aid, or the registered accessory is not
of the block's concrete type. -/
def capNeedInstall (st : BridgeFull) (vin : String) (spec : CapSpec) : Bool :=
  match get_existing_aid st.config spec.idStr vin with
  | none => true
  | some a =>
    match alGet st.accessories a with
    | none => true
    | some k => decide (k ≠ spec.kind)

/-- The complete guard of an `update` block: the capability type is not
ignored, the underlying vehicle capability is available, and an install is
needed. -/
def capGuard (ignoreTypes : List String) (v : Vehicle) (vin : String)
    (st : BridgeFull) (spec : CapSpec) : Bool :=
  !(ignoreTypes.contains spec.idStr) && spec.available v && capNeedInstall st vin spec

/-- One capability block of `update`: look up any recorded aid, skip if the
type is ignored, the capability is unavailable, or a correctly typed
accessory is already registered at that aid; otherwise resolve/assign the
aid, record category and services in the store, and install (add or
replace) the accessory in the registry.  The second component accumulates
the installations performed by the pass. -/
def capPass (ignoreTypes : List String) (v : Vehicle) (vin : String)
    (acc : BridgeFull × List (Int × AccessoryKind)) (spec : CapSpec) :
    BridgeFull × List (Int × AccessoryKind) :=
  let st := acc.1
  if capGuard ignoreTypes v vin st spec then
    let sel := select_aid st.config spec.idStr vin
    let cfg2 := set_config_item sel.2 spec.idStr vin "category" (ConfigValue.num spec.category)
    let cfg3 := set_config_item cfg2 spec.idStr vin "services" (ConfigValue.strs (spec.services v))
    ({ st with config := cfg3, accessories := alSet st.accessories sel.1 spec.kind },
     acc.2 ++ [(sel.1, spec.kind)])
  else acc

/-- `CarConnectivityBridge.update`: skip unless the vehicle and its VIN are
enabled and present, return early for an ignored VIN, run the capability
blocks in order, and when any installation happened notify the accessory
host via `driver.config_changed()`.  The source never calls
`persist_config` here, so `persistCalls` is untouched. -/
def update (ignoreVins ignoreTypes : List String) (st : BridgeFull) (vehicle : Vehicle) :
    BridgeFull × List (Int × AccessoryKind) :=
  if vehicle.enabled && vehicle.vin.enabled then
    match vehicle.vin.value with
    | none => (st, [])
    | some vin =>
      if ignoreVins.contains vin then (st, [])
      else
        let res := List.foldl (capPass ignoreTypes vehicle vin) (st, []) capSpecs
        if res.2.isEmpty then res
        else ({ res.1 with notifyCalls := res.1.notifyCalls + 1 }, res.2)
  else (st, [])

/-- A capability is installed: its key has a recorded aid and the registry
holds an accessory of the correct concrete type at that aid. -/
def capInstalled (vin : String) (st : BridgeFull) (spec : CapSpec) : Prop :=
  ∃ a : Int, get_existing_aid st.config spec.idStr vin = some a ∧
    alGet st.accessories a = some spec.kind

/-- A capability block will skip: its type is ignored, the vehicle
capability is unavailable, or it is already correctly installed. -/
def capSettled (ignoreTypes : List String) (v : Vehicle) (vin : String)
    (st : BridgeFull) (spec : CapSpec) : Prop :=
  ignoreTypes.contains spec.idStr = true ∨ spec.available v = false ∨ capInstalled vin st spec

/-- Iterated reconciliation passes over the same vehicle snapshot. -/
def iterPasses (ignoreVins ignoreTypes : List String) (v : Vehicle) (st : BridgeFull) :
    Nat → BridgeFull
  | 0 => st
  | n + 1 => (update ignoreVins ignoreTypes (iterPasses ignoreVins ignoreTypes v st n) v).1

/-! ### One-shot timers (`threading.Timer` usage in the accessories)

Each accessory keeps at most a reference to the timer it last started
(`__char_status_fault_timer`, `update_remaining_duration_timer`).  The
bank records every timer ever started so that "at most one live timer"
is a statement about all of them, not only about the stored reference. -/

/-- A started one-shot timer: absolute fire time, its payload (e.g. the
fault value to revert to), and whether `cancel()` was called on it. -/
structure SchedTimer (α : Type) where
  fireAt : Int
  payload : α
  cancelled : Bool
deriving DecidableEq, Repr

/-- All timers an accessory ever started for one purpose, plus the index
of the one its instance attribute currently references. -/
structure TimerBank (α : Type) where
  timers : List (SchedTimer α)
  current : Option Nat
deriving DecidableEq, Repr

/-- `Timer.is_alive()` at time `now`: started, not cancelled, and not yet
fired. -/
def timerAlive {α : Type} (t : SchedTimer α) (now : Int) : Bool :=
  !t.cancelled && decide (now < t.fireAt)

/-- Mark the timer at an index as cancelled. -/
def cancelIdx {α : Type} : List (SchedTimer α) → Nat → List (SchedTimer α)
  | [], _ => []
  | t :: rest, 0 => { t with cancelled := true } :: rest
  | t :: rest, n + 1 => t :: cancelIdx rest n

/-- Unconditional `timer.cancel(); timer = None` on the referenced timer
(as in `__update_remaining_duration`). -/
def cancelCurrent {α : Type} (b : TimerBank α) : TimerBank α :=
  match b.current with
  | none => b
  | some i => { timers := cancelIdx b.timers i, current := none }

/-- Conditional `if timer is not None and timer.is_alive(): cancel` (as in
`set_status_fault`). -/
def cancelCurrentIfAlive {α : Type} (b : TimerBank α) (now : Int) : TimerBank α :=
  match b.current with
  | none => b
  | some i =>
    match b.timers[i]? with
    | none => b
    | some t =>
      if timerAlive t now then { timers := cancelIdx b.timers i, current := none } else b

/-- `Timer(...).start()` plus storing the reference. -/
def scheduleTimer {α : Type} (b : TimerBank α) (fireAt : Int) (payload : α) : TimerBank α :=
  { timers := b.timers ++ [{ fireAt := fireAt, payload := payload, cancelled := false }]
    current := some b.timers.length }

/-- At most one timer of the bank is live at time `t`. -/
def AtMostOneLive {α : Type} (b : TimerBank α) (t : Int) : Prop :=
  ∀ (i j : Nat) (ti tj : SchedTimer α),
    b.timers[i]? = some ti → b.timers[j]? = some tj →
    timerAlive ti t = true → timerAlive tj t = true → i = j

/-- Number of live timers at time `t`. -/
def liveCount {α : Type} (b : TimerBank α) (t : Int) : Nat :=
  (b.timers.filter (fun tm => timerAlive tm t)).length

/-- Bank invariant: any live timer is the currently referenced one. -/
def BankInv {α : Type} (b : TimerBank α) (t : Int) : Prop :=
  ∀ (i : Nat) (ti : SchedTimer α),
    b.timers[i]? = some ti → timerAlive ti t = true → b.current = some i

/-- No timer of the bank is live at time `t`. -/
def DeadBank {α : Type} (b : TimerBank α) (t : Int) : Prop :=
  ∀ (i : Nat) (ti : SchedTimer α), b.timers[i]? = some ti → timerAlive ti t = false

/-! ### The status-fault characteristic (`GenericAccessory.set_status_fault`) -/

/-- State of the `StatusFault` characteristic and its revert timer. -/
structure FaultChar where
  hasChar : Bool
  faultValue : Int
  bank : TimerBank Int
deriving DecidableEq, Repr

/-- `GenericAccessory.set_status_fault(value, timeout, timeout_value)` at
time `now`: cancel a pending live revert timer, set the value, and for a
non-zero timeout schedule a one-shot revert to `timeout_value` (defaulting
to the value the characteristic held just before this call). -/
def set_status_fault (fc : FaultChar) (now value timeout : Int)
    (timeout_value : Option Int) : FaultChar :=
  if fc.hasChar then
    let b1 := cancelCurrentIfAlive fc.bank now
    if timeout = 0 then { fc with bank := b1, faultValue := value }
    else
      let tv := timeout_value.getD fc.faultValue
      { hasChar := fc.hasChar, faultValue := value
        bank := scheduleTimer b1 (now + timeout) tv }
  else fc

/-- One call to `set_status_fault`, with the wall-clock time it happens. -/
structure FaultCall where
  time : Int
  value : Int
  timeout : Int
  timeout_value : Option Int
deriving DecidableEq, Repr

/-- Apply a sequence of `set_status_fault` calls. -/
def runFaultCalls (fc : FaultChar) : List FaultCall → FaultChar
  | [] => fc
  | c :: rest => runFaultCalls (set_status_fault fc c.time c.value c.timeout c.timeout_value) rest

/-- Calls happen in chronological order, starting no earlier than `t0`. -/
def ChronoFault (t0 : Int) : List FaultCall → Prop
  | [] => True
  | c :: rest => t0 ≤ c.time ∧ ChronoFault c.time rest

/-- Time of the last call (or `t0` if there is none). -/
def lastFaultTime (t0 : Int) : List FaultCall → Int
  | [] => t0
  | c :: rest => lastFaultTime c.time rest

/-- A `StatusFault` characteristic just configured by
`add_status_fault_characteristic`: value 0, no timer started yet. -/
def initFaultChar : FaultChar :=
  { hasChar := true, faultValue := 0, bank := { timers := [], current := none } }

/-- The Scenario of the fault-timeout property: `set_fault(1, timeout=120)`
at time 0 followed by the same call at time 60. -/
def faultScenarioCalls : List FaultCall :=
  [{ time := 0, value := 1, timeout := 120, timeout_value := none },
   { time := 60, value := 1, timeout := 120, timeout_value := none }]

/-! ### The remaining-duration countdown
(`__update_remaining_duration` / `__on_cc_estimated_date_reached_change`,
identical in `climatization.py` and `charging.py`) -/

/-- State of the `RemainingDuration` characteristic, the cached
estimated-completion instant (epoch seconds) and the recompute timer. -/
structure CountdownChar where
  hasChar : Bool
  remainingDuration : Int
  estimated_date_reached : Option Int
  stopEventSet : Bool
  bank : TimerBank Unit
deriving DecidableEq, Repr

/-- `__update_remaining_duration` at time `now`: unconditionally cancel
the referenced recompute timer, recompute the whole-second remaining
duration from the cached estimate, and reschedule a recompute in 5 seconds
while the countdown is positive and the driver is not shutting down. -/
def update_remaining_duration (cc : CountdownChar) (now : Int) : CountdownChar :=
  let b1 := cancelCurrent cc.bank
  if cc.hasChar then
    let remaining : Int :=
      match cc.estimated_date_reached with
      | some est => if est > now then est - now else 0
      | none => 0
    if remaining > 0 && !cc.stopEventSet then
      { cc with bank := scheduleTimer b1 (now + 5) (), remainingDuration := remaining }
    else { cc with bank := b1, remainingDuration := remaining }
  else { cc with bank := b1 }

/-- The entry points that touch the countdown machinery: the 5-second
recompute timer firing, and the observer callback
`__on_cc_estimated_date_reached_change` delivering a valid or an
absent/invalid estimate. -/
inductive CountdownEvent where
  | recompute (time : Int)
  | newEstimate (time : Int) (est : Int)
  | estimateCleared (time : Int)
deriving DecidableEq, Repr

/-- Wall-clock time of a countdown event. -/
def countdownEventTime : CountdownEvent → Int
  | CountdownEvent.recompute t => t
  | CountdownEvent.newEstimate t _ => t
  | CountdownEvent.estimateCleared t => t

/-- Apply one countdown entry point.  The observer callback is guarded by
the characteristic being configured; its invalid branch resets the value
to 0 without touching the timer. -/
def applyCountdownEvent (cc : CountdownChar) : CountdownEvent → CountdownChar
  | CountdownEvent.recompute t => update_remaining_duration cc t
  | CountdownEvent.newEstimate t est =>
    if cc.hasChar then
      update_remaining_duration { cc with estimated_date_reached := some est } t
    else cc
  | CountdownEvent.estimateCleared _ =>
    if cc.hasChar then
      { cc with estimated_date_reached := none, remainingDuration := 0 }
    else cc

/-- Apply a sequence of countdown events. -/
def runCountdownEvents (cc : CountdownChar) : List CountdownEvent → CountdownChar
  | [] => cc
  | e :: rest => runCountdownEvents (applyCountdownEvent cc e) rest

/-- A `RemainingDuration` characteristic just configured: value not yet
set, no estimate cached, no recompute timer started. -/
def initCountdownChar : CountdownChar :=
  { hasChar := true, remainingDuration := 0, estimated_date_reached := none
    stopEventSet := false, bank := { timers := [], current := none } }

/-- Events happen in chronological order, starting no earlier than `t0`. -/
def ChronoCountdown (t0 : Int) : List CountdownEvent → Prop
  | [] => True
  | e :: rest => t0 ≤ countdownEventTime e ∧ ChronoCountdown (countdownEventTime e) rest

/-- Time of the last event (or `t0` if there is none). -/
def lastCountdownTime (t0 : Int) : List CountdownEvent → Int
  | [] => t0
  | e :: rest => lastCountdownTime (countdownEventTime e) rest

/-! ### Inbound characteristic writes (Python value semantics) -/

/-- Values an inbound HomeKit write can carry into a setter callback. -/
inductive HKValue where
  | pyBool (b : Bool)
  | pyInt (n : Int)
  | pyStr (s : String)
  | pyNone
deriving DecidableEq, Repr

/-- Python `value == n` for an integer literal `n`: booleans compare equal
to 0/1, integers by value, anything else unequal. -/
def pyEqInt : HKValue → Int → Bool
  | HKValue.pyBool b, n => decide ((if b then (1 : Int) else 0) = n)
  | HKValue.pyInt m, n => decide (m = n)
  | _, _ => false

/-- Python `value is True`: identity with the boolean literal `True`. -/
def pyIsTrue : HKValue → Bool
  | HKValue.pyBool true => true
  | _ => false

/-! ### Door lock accessory (`locking_system.py`) -/

/-- Commands the lock accessory can issue to the vehicle model. -/
inductive LockCmd where
  | lock
  | unlock
deriving DecidableEq, Repr

/-- The slice of `LockingAccessory` state its inbound handler touches. -/
structure LockAcc where
  charLockCurrentState : Option Int
  charLockTargetState : Option Int
  commandPresent : Bool
  commandEnabled : Bool
  fault : FaultChar
deriving DecidableEq, Repr

/-- The revert-and-fault response shared by the setter-error handler and
the cannot-be-controlled branch: set the target state from the last-known
current state (`1` when current is locked/jammed, else `0`) and raise a
120-second fault. -/
def lockRevertTarget (acc : LockAcc) (now : Int) : LockAcc :=
  let tgt : Int :=
    match acc.charLockCurrentState with
    | some cur => if cur = 1 ∨ cur = 3 then 1 else 0
    | none => 0
  let acc1 := { acc with charLockTargetState := some tgt }
  { acc1 with fault := set_status_fault acc1.fault now 1 120 none }

/-- `LockingAccessory.__on_hk_lock_target_state_change`: writes of `1`/`0`
issue lock/unlock commands; a `SetterError` raised by command execution is
caught locally, the target characteristic reverted and a 120-second fault
raised; unrecognized writes only raise the fault.  The second component
lists the commands successfully handed to the vehicle model. -/
def on_hk_lock_target_state_change (acc : LockAcc) (value : HKValue) (setterFails : Bool)
    (now : Int) : LockAcc × List LockCmd :=
  if acc.charLockTargetState.isSome then
    if acc.commandPresent && acc.commandEnabled then
      if pyEqInt value 1 then
        if setterFails then (lockRevertTarget acc now, [])
        else (acc, [LockCmd.lock])
      else if pyEqInt value 0 then
        if setterFails then (lockRevertTarget acc now, [])
        else (acc, [LockCmd.unlock])
      else ({ acc with fault := set_status_fault acc.fault now 1 120 none }, [])
    else (lockRevertTarget acc now, [])
  else (acc, [])

/-! ### Model-state to characteristic mappings (observer callbacks) -/

/-- `carconnectivity.charging.Charging.ChargingState`, with `other` for
enum members added after this plugin was written. -/
inductive CCChargingState where
  | off
  | readyForCharging
  | charging
  | discharging
  | conservation
  | chargingError
  | unsupported
  | unknown
  | other (s : String)
deriving DecidableEq, Repr

/-- The mapping inside `ChargingAccessory.__on_cc_charging_state_change`:
result is the value written to the `On` characteristic plus whether the
unsupported-state warning is logged; `none` would mean the chain left the
characteristic unassigned. -/
def chargingStateToOn (v : Option CCChargingState) : Option (Int × Bool) :=
  match v with
  | none => some (0, false)
  | some s =>
    if s = CCChargingState.off ∨ s = CCChargingState.readyForCharging then some (0, false)
    else if s = CCChargingState.charging ∨ s = CCChargingState.discharging
        ∨ s = CCChargingState.conservation then some (1, false)
    else if s = CCChargingState.chargingError ∨ s = CCChargingState.unsupported then
      some (0, false)
    else some (0, true)

/-- `carconnectivity.doors.Doors.LockState`, with `other` for members
added later. -/
inductive CCLockState where
  | locked
  | unlocked
  | invalid
  | unknown
  | other (s : String)
deriving DecidableEq, Repr

/-- The mapping inside `LockingAccessory.__on_cc_lock_state_change`:
`(current state value, target state value, warning logged)`; the target
write only happens when that characteristic is configured, which the
caller applies.  A `none` result would mean an unhandled case. -/
def lockStateToChars (v : Option CCLockState) : Option (Int × Int × Bool) :=
  match v with
  | some CCLockState.locked => some (1, 1, false)
  | some CCLockState.unlocked => some (0, 0, false)
  | some CCLockState.invalid => some (3, 1, false)
  | some CCLockState.unknown => some (3, 1, false)
  | some (CCLockState.other _) => some (3, 1, true)
  | none => some (3, 1, true)

/-- `carconnectivity.window_heating.WindowHeatings.HeatingState`. -/
inductive WHState where
  | off
  | on
  | invalid
  | unsupported
  | unknown
  | other (s : String)
deriving DecidableEq, Repr

/-- The mapping inside
`WindowHeatingAccessory.__on_cc_heating_state_change`. -/
def whStateToOn (v : Option WHState) : Option (Int × Bool) :=
  match v with
  | none => some (0, false)
  | some WHState.off => some (0, false)
  | some WHState.on => some (1, false)
  | some WHState.invalid => some (0, false)
  | some WHState.unsupported => some (0, false)
  | some WHState.unknown => some (0, false)
  | some (WHState.other _) => some (0, true)

/-! ### Window-heating and flashing-light inbound handlers -/

/-- Start/stop commands of the window-heating accessory. -/
inductive WHCmd where
  | start
  | stop
deriving DecidableEq, Repr

/-- `WindowHeatingAccessory.__on_hk_on_change`: writes comparing equal to
1, 2 or 3 start the heating, 0 stops it, anything else is logged and
dropped; a `SetterError` raises a 120-second fault.  Returns the commands
issued, whether the not-understood branch logged, and whether the fault
was raised. -/
def wh_on_hk_on_change (cmdPresent cmdEnabled : Bool) (value : HKValue) (setterFails : Bool) :
    List WHCmd × Bool × Bool :=
  if cmdPresent && cmdEnabled then
    if pyEqInt value 1 || pyEqInt value 2 || pyEqInt value 3 then
      if setterFails then ([], false, true) else ([WHCmd.start], false, false)
    else if pyEqInt value 0 then
      if setterFails then ([], false, true) else ([WHCmd.stop], false, false)
    else ([], true, false)
  else ([], false, false)

/-- Observable outcome of one flashing-light `On` write. -/
structure FlashOutcome where
  issuedFlash : Bool
  timerStarted : Bool
  rejectedLogged : Bool
  charOnReset : Bool
  faultRaised : Bool
deriving DecidableEq, Repr

/-- `FlashingLightAccessory.__on_hk_on_change`: only a write that *is* the
boolean `True` issues the flash command and starts the 10-second auto-off
timer; every other value hits the rejection branch that logs an error and
does nothing.  A `SetterError` from the command resets the switch and
raises a 120-second fault (the timer line is never reached). -/
def flash_on_hk_on_change (cmdPresent cmdEnabled : Bool) (value : HKValue)
    (setterFails : Bool) : FlashOutcome :=
  if cmdPresent && cmdEnabled then
    if pyIsTrue value then
      if setterFails then
        { issuedFlash := false, timerStarted := false, rejectedLogged := false
          charOnReset := true, faultRaised := true }
      else
        { issuedFlash := true, timerStarted := true, rejectedLogged := false
          charOnReset := false, faultRaised := false }
    else
      { issuedFlash := false, timerStarted := false, rejectedLogged := true
        charOnReset := false, faultRaised := false }
  else
    { issuedFlash := false, timerStarted := false, rejectedLogged := false
      charOnReset := false, faultRaised := false }

/-! ### Charging, window-heating and climatization inbound command writes -/

/-- A start/stop command issued to the vehicle model. -/
inductive StartStopCmd where
  | start
  | stop
deriving DecidableEq, Repr

/-- Observable outcome of one on/off-style command write, recording every
write the handler itself performs on its own characteristic (the `On`
value already optimistically written by the protocol stack is only
changed if this list is non-empty). -/
structure OnWriteOutcome where
  charOnWrites : List Int
  issued : List StartStopCmd
  rejectedLogged : Bool
  faultRaised : Bool
deriving DecidableEq, Repr

/-- `ChargingAccessory.__on_hk_on_change`: writes comparing equal to 1, 2
or 3 start charging, 0 stops it, others are logged and dropped; a
`SetterError` is caught and answered with a 120-second fault only — the
handler never writes the `On` characteristic, so the optimistic value is
not reverted. -/
def charging_on_hk_on_change (cmdPresent cmdEnabled : Bool) (value : HKValue)
    (setterFails : Bool) : OnWriteOutcome :=
  if cmdPresent && cmdEnabled then
    if pyEqInt value 1 || pyEqInt value 2 || pyEqInt value 3 then
      if setterFails then
        { charOnWrites := [], issued := [], rejectedLogged := false, faultRaised := true }
      else
        { charOnWrites := [], issued := [StartStopCmd.start], rejectedLogged := false
          faultRaised := false }
    else if pyEqInt value 0 then
      if setterFails then
        { charOnWrites := [], issued := [], rejectedLogged := false, faultRaised := true }
      else
        { charOnWrites := [], issued := [StartStopCmd.stop], rejectedLogged := false
          faultRaised := false }
    else
      { charOnWrites := [], issued := [], rejectedLogged := true, faultRaised := false }
  else
    { charOnWrites := [], issued := [], rejectedLogged := false, faultRaised := false }

/-- `WindowHeatingAccessory.__on_hk_on_change` with its characteristic
writes recorded: identical control flow to the charging handler, and
likewise no write to the `On` characteristic on the `SetterError` path. -/
def window_heating_on_hk_on_change (cmdPresent cmdEnabled : Bool) (value : HKValue)
    (setterFails : Bool) : OnWriteOutcome :=
  if cmdPresent && cmdEnabled then
    if pyEqInt value 1 || pyEqInt value 2 || pyEqInt value 3 then
      if setterFails then
        { charOnWrites := [], issued := [], rejectedLogged := false, faultRaised := true }
      else
        { charOnWrites := [], issued := [StartStopCmd.start], rejectedLogged := false
          faultRaised := false }
    else if pyEqInt value 0 then
      if setterFails then
        { charOnWrites := [], issued := [], rejectedLogged := false, faultRaised := true }
      else
        { charOnWrites := [], issued := [StartStopCmd.stop], rejectedLogged := false
          faultRaised := false }
    else
      { charOnWrites := [], issued := [], rejectedLogged := true, faultRaised := false }
  else
    { charOnWrites := [], issued := [], rejectedLogged := false, faultRaised := false }

/-- Observable outcome of one climatization mode write, recording the
writes the handler performs on the target heating/cooling characteristic. -/
structure ClimModeOutcome where
  charTargetWrites : List Int
  issued : List StartStopCmd
  rejectedLogged : Bool
  faultRaised : Bool
deriving DecidableEq, Repr

/-- `ClimatizationAccessory.__on_hk_target_heating_cooling_state_changed`:
writes of 1/2/3 start and 0 stops climatization; a `SetterError` is caught
and the target characteristic reverted — to 3 when the current state is
heating/cooling (1 or 2) and both characteristics exist, else to 0 when
the target exists — before raising a 120-second fault.  The
not-understood branch only logs. -/
def climatization_on_hk_target_heating_cooling_state_changed
    (charCurrent : Option Int) (hasTarget : Bool) (cmdPresent cmdEnabled : Bool)
    (value : HKValue) (setterFails : Bool) : ClimModeOutcome :=
  let revertWrites : List Int :=
    if (charCurrent.isSome && hasTarget)
        && (decide (charCurrent = some 1) || decide (charCurrent = some 2)) then [3]
    else if hasTarget then [0]
    else []
  if cmdPresent && cmdEnabled then
    if pyEqInt value 1 || pyEqInt value 2 || pyEqInt value 3 then
      if setterFails then
        { charTargetWrites := revertWrites, issued := [], rejectedLogged := false
          faultRaised := true }
      else
        { charTargetWrites := [], issued := [StartStopCmd.start], rejectedLogged := false
          faultRaised := false }
    else if pyEqInt value 0 then
      if setterFails then
        { charTargetWrites := revertWrites, issued := [], rejectedLogged := false
          faultRaised := true }
      else
        { charTargetWrites := [], issued := [StartStopCmd.stop], rejectedLogged := false
          faultRaised := false }
    else
      { charTargetWrites := [], issued := [], rejectedLogged := true, faultRaised := false }
  else
    { charTargetWrites := [], issued := [], rejectedLogged := false, faultRaised := false }

/-! ### Climatization state mapping (observer callback) -/

/-- `carconnectivity.climatization.Climatization.ClimatizationState`, with
`other` for members added after this plugin was written. -/
inductive CCClimState where
  | heating
  | cooling
  | ventilation
  | off
  | unknown
  | other (s : String)
deriving DecidableEq, Repr

/-- Outcome of one climatization state-change delivery: the values written
to the current and target heating/cooling characteristics, whether the
unsupported-state warning was logged, and whether the callback raised
(the unconditional closing debug log evaluates `element.value.value`,
which is an `AttributeError` when the delivered value is `None`). -/
structure ClimStateOutcome where
  charCurrent : Option Int
  charTarget : Option Int
  warned : Bool
  raised : Bool
deriving DecidableEq, Repr

/-- `ClimatizationAccessory.__on_cc_climatization_state_change` for a
`VALUE_CHANGED` delivery: the case table (None and OFF map to 0/0,
HEATING to 1/3, COOLING and VENTILATION to 2/3, anything else to 0/0 plus
a warning), followed by the closing debug log that dereferences
`element.value.value` and therefore raises after a `None` delivery —
after the characteristics were already assigned. -/
def climatizationStateToChars (hasCurrent hasTarget : Bool) (v : Option CCClimState) :
    ClimStateOutcome :=
  if hasCurrent then
    let tgt : Int → Option Int := fun n => if hasTarget then some n else none
    let base : ClimStateOutcome :=
      match v with
      | none =>
        { charCurrent := some 0, charTarget := tgt 0, warned := false, raised := false }
      | some CCClimState.heating =>
        { charCurrent := some 1, charTarget := tgt 3, warned := false, raised := false }
      | some CCClimState.cooling =>
        { charCurrent := some 2, charTarget := tgt 3, warned := false, raised := false }
      | some CCClimState.ventilation =>
        { charCurrent := some 2, charTarget := tgt 3, warned := false, raised := false }
      | some CCClimState.off =>
        { charCurrent := some 0, charTarget := tgt 0, warned := false, raised := false }
      | some CCClimState.unknown =>
        { charCurrent := some 0, charTarget := tgt 0, warned := true, raised := false }
      | some (CCClimState.other _) =>
        { charCurrent := some 0, charTarget := tgt 0, warned := true, raised := false }
    { base with raised := v.isNone }
  else
    { charCurrent := none, charTarget := none, warned := false, raised := false }

/-! ### Identity-store operation language (for the counter invariant) -/

/-- The identity-store operations that touch entries and the counter. -/
inductive StoreOp where
  | selectAid (id_str vin : String)
  | setConfigItem (id_str vin config_key : String) (item : ConfigValue)
deriving DecidableEq, Repr

/-- Apply one store operation. -/
def applyStoreOp (st : BridgeState) : StoreOp → BridgeState
  | StoreOp.selectAid i v => (select_aid st i v).2
  | StoreOp.setConfigItem i v k item => set_config_item st i v k item

/-- Apply a sequence of store operations. -/
def applyStoreOps (st : BridgeState) (ops : List StoreOp) : BridgeState :=
  List.foldl applyStoreOp st ops

/-- A generic metadata write: a `set_config_item` call whose key is not
the `aid` field itself (the only keys the plugin ever passes are
`category`, `services` and `ConfiguredName`). -/
def MetadataOnly : StoreOp → Prop
  | StoreOp.selectAid _ _ => True
  | StoreOp.setConfigItem _ _ k _ => k ≠ "aid"

/-- The counter invariant: `next_aid` strictly exceeds every aid recorded
in the store. -/
def StoreAidInv (st : BridgeState) : Prop :=
  ∀ (ident : String) (entry : ConfigEntry) (n : Int),
    alGet st.accessoryConfig ident = some entry →
    alGet entry "aid" = some (ConfigValue.num n) → n < st.next_aid

/-- The integer aid recorded under a raw identifier, if any. -/
def aidAt (cfg : List (String × ConfigEntry)) (ident : String) : Option Int :=
  match alGet cfg ident with
  | none => none
  | some entry =>
    match alGet entry "aid" with
    | some (ConfigValue.num n) => some n
    | _ => none

/-- Distinct identifiers carry distinct aids. -/
def StoreAidInj (st : BridgeState) : Prop :=
  ∀ (i1 i2 : String) (n1 n2 : Int),
    aidAt st.accessoryConfig i1 = some n1 → aidAt st.accessoryConfig i2 = some n2 →
    i1 ≠ i2 → n1 ≠ n2

/-- Both store invariants together: the counter dominates every recorded
aid, and distinct identifiers carry distinct aids. -/
def FullStoreInv (s : BridgeFull) : Prop :=
  StoreAidInv s.config ∧ StoreAidInj s.config

/-- One step of the amended load rule: raise the accumulator to one more
than the entry's aid, when it has one. -/
def loadedNextAidStep (m : Int) (p : String × ConfigEntry) : Int :=
  match alGet p.snd "aid" with
  | some (ConfigValue.num n) => max m (n + 1)
  | _ => m

/-- The load rule actually implemented: the counter after load is the
maximum of the default 100 and one more than every stored aid (the
spec's `max(all aids) + 1` only when that maximum reaches at least 99). -/
def loadedNextAid (entries : List (String × ConfigEntry)) : Int :=
  List.foldl loadedNextAidStep 100 entries

/-! ### Concrete scenario inputs -/

/-- The bridge state right after `__init__` with no stored file. -/
def freshBridge : BridgeFull :=
  { config := { accessoryConfig := [], next_aid := 100 }
    accessories := [], notifyCalls := 0, persistCalls := 0 }

/-- Scenario A vehicle: key `WVW123`, climatization enabled, nothing
else. -/
def climVehicle : Vehicle :=
  { enabled := true
    vin := { enabled := true, value := some "WVW123" }
    manufacturer := { enabled := false, value := none }
    name := { enabled := false, value := none }
    model := { enabled := false, value := none }
    software := none
    isElectric := false
    electricDriveLevelEnabled := false
    climatization := some { enabled := true }
    charging := none
    outside_temperature := none
    commands := none
    doors := none
    window_heatings := none }

/-- A vehicle whose only present capability is enabled window heating. -/
def whVehicle : Vehicle :=
  { climVehicle with climatization := none, window_heatings := some { enabled := true } }

/-- Scenario B store file: one entry with aid 105 and no counter. -/
def entries105 : List (String × ConfigEntry) :=
  [("WVW123-Climatization", [("aid", ConfigValue.num 105)])]

/-- A store file whose maximum aid (50) lies below the default counter. -/
def entries50 : List (String × ConfigEntry) :=
  [("WVW123-Climatization", [("aid", ConfigValue.num 50)])]

/-- Scenario C lock accessory: current state locked, command controllable,
no fault raised yet. -/
def lockScenarioAcc : LockAcc :=
  { charLockCurrentState := some 1, charLockTargetState := some 0
    commandPresent := true, commandEnabled := true, fault := initFaultChar }

/-! ## Theorems -/

/-! ### Association-list facts -/

theorem alGet_alSet_same {κ α : Type} [DecidableEq κ] (l : List (κ × α)) (k : κ) (v : α) :
    alGet (alSet l k v) k = some v := by
  induction l with
  | nil => simp [alGet, alSet]
  | cons hd tl ih =>
    obtain ⟨k2, v2⟩ := hd
    by_cases h : k2 = k
    · simp [alGet, alSet, h]
    · simp [alGet, alSet, h, ih]

theorem alGet_alSet_ne {κ α : Type} [DecidableEq κ] (l : List (κ × α)) (k k' : κ) (v : α)
    (h : k' ≠ k) : alGet (alSet l k v) k' = alGet l k' := by
  induction l with
  | nil =>
    simp only [alSet, alGet]
    rw [if_neg (fun hh => h hh.symm)]
  | cons hd tl ih =>
    obtain ⟨k2, v2⟩ := hd
    by_cases h2 : k2 = k
    · subst h2
      simp only [alSet, if_pos rfl, alGet]
      rw [if_neg (fun hh => h hh.symm), if_neg (fun hh => h hh.symm)]
    · simp only [alSet, if_neg h2]
      by_cases h3 : k2 = k'
      · simp [alGet, h3]
      · simp [alGet, h3, ih]

/-! ### Facts about the load rule -/

theorem loadedNextAidStep_ge (m : Int) (p : String × ConfigEntry) : m ≤ loadedNextAidStep m p := by
  unfold loadedNextAidStep
  rcases alGet p.snd "aid" with _ | v
  · exact le_refl m
  · rcases v with n | s | l
    · exact le_max_left m (n + 1)
    · exact le_refl m
    · exact le_refl m

theorem foldl_loadedNextAidStep_ge (entries : List (String × ConfigEntry)) :
    ∀ init : Int, init ≤ List.foldl loadedNextAidStep init entries := by
  induction entries with
  | nil => intro init; exact le_refl init
  | cons hd tl ih =>
    intro init
    exact le_trans (loadedNextAidStep_ge init hd) (ih (loadedNextAidStep init hd))

theorem foldl_loadedNextAidStep_mem (entries : List (String × ConfigEntry)) :
    ∀ (init : Int) (p : String × ConfigEntry), p ∈ entries →
      ∀ n : Int, alGet p.snd "aid" = some (ConfigValue.num n) →
      n + 1 ≤ List.foldl loadedNextAidStep init entries := by
  induction entries with
  | nil => intro _ p hp; exact absurd hp (List.not_mem_nil p)
  | cons hd tl ih =>
    intro init p hp n hn
    rcases List.mem_cons.mp hp with h | h
    · have h1 : n + 1 ≤ loadedNextAidStep init hd := by
        unfold loadedNextAidStep
        rw [← h, hn]
        exact le_max_right init (n + 1)
      exact le_trans h1 (foldl_loadedNextAidStep_ge tl (loadedNextAidStep init hd))
    · exact ih (loadedNextAidStep init hd) p h n hn

theorem read_config_next_aid_eq_fold (entries : List (String × ConfigEntry)) :
    ∀ init : Int,
      read_config_next_aid entries init = List.foldl loadedNextAidStep init entries := by
  induction entries with
  | nil => intro init; rfl
  | cons hd tl ih =>
    intro init
    have hstep :
        (match alGet hd.snd "aid" with
          | some (ConfigValue.num n) => if n + 1 > init then n + 1 else init
          | _ => init) = loadedNextAidStep init hd := by
      unfold loadedNextAidStep
      rcases alGet hd.snd "aid" with _ | v
      · rfl
      · rcases v with n | s | l
        · show (if n + 1 > init then n + 1 else init) = max init (n + 1)
          rcases le_or_lt (n + 1) init with h | h
          · rw [if_neg (by omega), max_eq_left h]
          · rw [if_pos (by omega), max_eq_right (le_of_lt h)]
        · rfl
        · rfl
    simp only [read_config_next_aid, List.foldl] at *
    rw [hstep]
    exact ih (loadedNextAidStep init hd)

/-! ### Which kinds a reconciliation pass can install -/

theorem capPass_installed_mem (it : List String) (v : Vehicle) (vin : String)
    (acc : BridgeFull × List (Int × AccessoryKind)) (spec : CapSpec)
    (p : Int × AccessoryKind) (hp : p ∈ (capPass it v vin acc spec).2) :
    p ∈ acc.2 ∨ p.2 = spec.kind := by
  simp only [capPass] at hp
  split at hp
  · simp only [List.mem_append, List.mem_singleton] at hp
    rcases hp with h | h
    · exact Or.inl h
    · right; rw [h]
  · exact Or.inl hp

theorem foldl_capPass_installed_mem (it : List String) (v : Vehicle) (vin : String) :
    ∀ (specs : List CapSpec) (acc : BridgeFull × List (Int × AccessoryKind))
      (p : Int × AccessoryKind),
      p ∈ (List.foldl (capPass it v vin) acc specs).2 →
      p ∈ acc.2 ∨ p.2 ∈ specs.map CapSpec.kind
  | [], _, p, hp => Or.inl hp
  | s :: rest, acc, p, hp => by
    rcases foldl_capPass_installed_mem it v vin rest (capPass it v vin acc s) p hp with h | h
    · rcases capPass_installed_mem it v vin acc s p h with h2 | h2
      · exact Or.inl h2
      · exact Or.inr (by simp [h2])
    · exact Or.inr (by simp [h])

theorem update_installed_kind_mem (iv it : List String) (st : BridgeFull) (v : Vehicle)
    (p : Int × AccessoryKind) (hp : p ∈ (update iv it st v).2) :
    p.2 ∈ capSpecs.map CapSpec.kind := by
  simp only [update] at hp
  split at hp
  · split at hp
    · exact absurd hp (List.not_mem_nil p)
    · rename_i vin heq
      split at hp
      · exact absurd hp (List.not_mem_nil p)
      · split at hp
        · rcases foldl_capPass_installed_mem it v vin capSpecs (st, []) p hp with h | h
          · exact absurd h (List.not_mem_nil p)
          · exact h
        · rcases foldl_capPass_installed_mem it v vin capSpecs (st, []) p hp with h | h
          · exact absurd h (List.not_mem_nil p)
          · exact h
  · exact absurd hp (List.not_mem_nil p)

/-! ### Claim C1 -/

/-- C1: Scenario A on the code as written.  The first reconciliation pass
over a fresh store and a vehicle `WVW123` with climatization enabled does
assign aid 100, install a climatization accessory and notify the accessory
host — but it never calls `persist_config` (the store file is not
written), and `next_aid` ends at 103 rather than 101 because
`set_config_item` increments the counter on the category and services
writes. -/
theorem c1_first_pass_notifies_but_never_persists :
    (update [] [] freshBridge climVehicle).2 = [(100, AccessoryKind.climatization)] ∧
    (update [] [] freshBridge climVehicle).1.notifyCalls = 1 ∧
    (update [] [] freshBridge climVehicle).1.persistCalls = 0 ∧
    get_existing_aid (update [] [] freshBridge climVehicle).1.config "Climatization" "WVW123"
      = some 100 ∧
    (update [] [] freshBridge climVehicle).1.config.next_aid = 103 := by
  decide

/-! ### Claim C2 -/

/-- C2: `persist_config` swallows (and logs) only `ValueError`; an
operating-system write failure propagates to the caller, contrary to the
method's own docstring.  The in-memory store is unchanged in every case. -/
theorem c2_persist_swallows_only_value_error :
    ∀ (st : BridgeState) (msg : String),
      (persist_config st true (WriteOutcome.osError msg)).raised = true ∧
      (persist_config st true (WriteOutcome.valueError msg)).raised = false ∧
      (persist_config st true (WriteOutcome.valueError msg)).loggedFailure = true ∧
      (persist_config st true (WriteOutcome.osError msg)).store = st ∧
      (persist_config st true (WriteOutcome.valueError msg)).store = st := by
  intro st msg
  exact ⟨rfl, rfl, rfl, rfl, rfl⟩

/-- C2 witness: a concrete operating-system failure escapes
`persist_config`. -/
theorem c2_persist_swallows_only_value_error_witness :
    (persist_config freshBridge.config true (WriteOutcome.osError "disk full")).raised = true :=
  (c2_persist_swallows_only_value_error freshBridge.config "disk full").1

/-! ### Claim C3 -/

/-- C3 counterexample: a vehicle whose only present and enabled capability
is window heating gets no accessory at all from a reconciliation pass over
a fresh bridge — in particular no window-heating switch. -/
theorem c3_counterexample_window_heating_skipped :
    whVehicle.enabled = true ∧
    whVehicle.vin.enabled = true ∧
    whVehicle.window_heatings = some { enabled := true } ∧
    (update [] [] freshBridge whVehicle).2 = [] ∧
    (update [] [] freshBridge whVehicle).1 = freshBridge := by
  decide

/-- C3 (amended): `update` installs accessories only for the six wired
capability types, never a window-heating accessory; the
`WindowHeatingAccessory` class itself does implement the advertised
heating-state table and start/stop command mapping, but no block of the
reconciliation pass instantiates it. -/
theorem c3_update_never_installs_window_heating :
    (∀ (iv it : List String) (st : BridgeFull) (v : Vehicle) (p : Int × AccessoryKind),
      p ∈ (update iv it st v).2 → p.2 ≠ AccessoryKind.windowHeating) ∧
    (whStateToOn (some WHState.off) = some (0, false) ∧
     whStateToOn (some WHState.on) = some (1, false) ∧
     whStateToOn (some WHState.invalid) = some (0, false) ∧
     whStateToOn (some WHState.unsupported) = some (0, false) ∧
     whStateToOn (some WHState.unknown) = some (0, false) ∧
     (∀ s : String, whStateToOn (some (WHState.other s)) = some (0, true))) ∧
    (wh_on_hk_on_change true true (HKValue.pyInt 1) false = ([WHCmd.start], false, false) ∧
     wh_on_hk_on_change true true (HKValue.pyInt 2) false = ([WHCmd.start], false, false) ∧
     wh_on_hk_on_change true true (HKValue.pyInt 3) false = ([WHCmd.start], false, false) ∧
     wh_on_hk_on_change true true (HKValue.pyInt 0) false = ([WHCmd.stop], false, false) ∧
     wh_on_hk_on_change true true (HKValue.pyInt 1) true = ([], false, true)) := by
  refine ⟨?_, ⟨rfl, rfl, rfl, rfl, rfl, fun s => rfl⟩, rfl, rfl, rfl, rfl, rfl⟩
  intro iv it st v p hp hcontra
  have hmem := update_installed_kind_mem iv it st v p hp
  rw [hcontra] at hmem
  revert hmem
  decide

/-- C3 witness: the no-window-heating statement applied to the Scenario A
pass, whose single installation is the climatization accessory. -/
theorem c3_update_never_installs_window_heating_witness :
    (100, AccessoryKind.climatization).2 ≠ AccessoryKind.windowHeating :=
  c3_update_never_installs_window_heating.1 [] [] freshBridge climVehicle
    (100, AccessoryKind.climatization) (by decide)

/-! ### Claim C8 -/

/-- C8 counterexample: a store file whose only (and therefore maximal) aid
is 50 loads with `next_aid` still at the default 100, not at `50 + 1` as
the claim states for every non-empty file. -/
theorem c8_counterexample_low_aid_keeps_default :
    entries50.length = 1 ∧
    alGet entries50 "WVW123-Climatization" = some [("aid", ConfigValue.num 50)] ∧
    ((bridge_init (some entries50)).map fun s => s.config.next_aid) = some 100 ∧
    (100 : Int) ≠ 50 + 1 := by
  decide

/-- C8 (amended): an absent file yields the empty store with the default
counter; loading a file sets `next_aid` to the maximum of 100 and one more
than every stored aid (so in particular strictly above every stored aid,
and exactly `max aid + 1` only when that is at least 100); Scenario B
holds: a preloaded entry with aid 105 and no counter loads with `next_aid`
106 and the next reconciliation of the same key reuses aid 105. -/
theorem c8_load_rule :
    bridge_init none = some freshBridge ∧
    (∀ entries : List (String × ConfigEntry),
      read_config_next_aid entries 100 = loadedNextAid entries) ∧
    (∀ entries : List (String × ConfigEntry),
      (100 : Int) ≤ read_config_next_aid entries 100) ∧
    (∀ (entries : List (String × ConfigEntry)) (p : String × ConfigEntry), p ∈ entries →
      ∀ n : Int, alGet p.snd "aid" = some (ConfigValue.num n) →
        n < read_config_next_aid entries 100) ∧
    ((bridge_init (some entries105)).map (fun s => s.config.next_aid) = some 106 ∧
     (bridge_init (some entries105)).map (fun s => (update [] [] s climVehicle).2) =
       some [(105, AccessoryKind.climatization)]) := by
  refine ⟨rfl, ?_, ?_, ?_, by decide, by decide⟩
  · intro entries
    exact read_config_next_aid_eq_fold entries 100
  · intro entries
    rw [read_config_next_aid_eq_fold entries 100]
    exact foldl_loadedNextAidStep_ge entries 100
  · intro entries p hp n hn
    rw [read_config_next_aid_eq_fold entries 100]
    have := foldl_loadedNextAidStep_mem entries 100 p hp n hn
    omega

/-- C8 witness: the strict bound applied to the Scenario B file. -/
theorem c8_load_rule_witness :
    (105 : Int) < read_config_next_aid entries105 100 :=
  c8_load_rule.2.2.2.1 entries105 ("WVW123-Climatization", [("aid", ConfigValue.num 105)])
    (by decide) 105 (by decide)

/-! ### Claim C9 -/

/-- C9: the charging, lock and window-heating state mappings are total and
never raise — every input, including `None`, the explicit unknown member
and members added later, gets a defined characteristic value, warning
exactly on the catch-all arm.  The climatization state mapping, however,
assigns its defined values and then raises: its closing debug log
dereferences `element.value.value` unconditionally, which is an
`AttributeError` precisely when the delivered value is `None` — the case
its own first branch just handled. -/
theorem c9_climatization_none_mapping_raises :
    climatizationStateToChars true true none =
      { charCurrent := some 0, charTarget := some 0, warned := false, raised := true } ∧
    (∀ v : Option CCClimState,
      (climatizationStateToChars true true v).raised = v.isNone) ∧
    (∀ v : Option CCClimState,
      (climatizationStateToChars true true v).charCurrent.isSome = true) ∧
    (∀ v : Option CCChargingState, (chargingStateToOn v).isSome = true) ∧
    (∀ v : Option CCLockState, (lockStateToChars v).isSome = true) ∧
    (∀ v : Option WHState, (whStateToOn v).isSome = true) ∧
    chargingStateToOn none = some (0, false) ∧
    chargingStateToOn (some CCChargingState.unknown) = some (0, true) ∧
    (∀ s : String, chargingStateToOn (some (CCChargingState.other s)) = some (0, true)) ∧
    lockStateToChars none = some (3, 1, true) ∧
    lockStateToChars (some CCLockState.unknown) = some (3, 1, false) ∧
    (∀ s : String, lockStateToChars (some (CCLockState.other s)) = some (3, 1, true)) := by
  refine ⟨rfl, ?_, ?_, ?_, ?_, ?_, rfl, rfl, fun s => rfl, rfl, rfl, fun s => rfl⟩
  · intro v
    rcases v with _ | s
    · rfl
    · rcases s <;> rfl
  · intro v
    rcases v with _ | s
    · rfl
    · rcases s <;> rfl
  · intro v
    rcases v with _ | s
    · rfl
    · rcases s <;> rfl
  · intro v
    rcases v with _ | s
    · rfl
    · rcases s <;> rfl
  · intro v
    rcases v with _ | s
    · rfl
    · rcases s <;> rfl

/-- C9 witness: the raise characterization evaluated at the `None`
delivery. -/
theorem c9_climatization_none_mapping_raises_witness :
    (climatizationStateToChars true true none).raised = (none : Option CCClimState).isNone :=
  c9_climatization_none_mapping_raises.2.1 none

/-! ### Claim C10 -/

/-- C10: the flashing-light on-write handler issues the flash command and
starts the 10-second auto-off timer exactly when the written value *is*
the boolean `True` (and the command does not fail); every other value —
including the integer 1, which the window-heating switch accepts as on —
takes the rejection branch that logs and does nothing. -/
theorem c10_flash_requires_literal_true :
    (∀ (cp ce sf : Bool) (v : HKValue),
      (flash_on_hk_on_change cp ce v sf).issuedFlash = (cp && ce && pyIsTrue v && !sf) ∧
      (flash_on_hk_on_change cp ce v sf).timerStarted = (cp && ce && pyIsTrue v && !sf) ∧
      (flash_on_hk_on_change cp ce v sf).rejectedLogged = (cp && ce && !pyIsTrue v)) ∧
    pyIsTrue (HKValue.pyInt 1) = false ∧
    pyEqInt (HKValue.pyInt 1) 1 = true ∧
    flash_on_hk_on_change true true (HKValue.pyInt 1) false =
      { issuedFlash := false, timerStarted := false, rejectedLogged := true
        charOnReset := false, faultRaised := false } ∧
    wh_on_hk_on_change true true (HKValue.pyInt 1) false = ([WHCmd.start], false, false) := by
  refine ⟨?_, rfl, rfl, rfl, rfl⟩
  intro cp ce sf v
  rcases v with b | n | s | _
  · cases b <;> cases cp <;> cases ce <;> cases sf <;> exact ⟨rfl, rfl, rfl⟩
  · cases cp <;> cases ce <;> cases sf <;> exact ⟨rfl, rfl, rfl⟩
  · cases cp <;> cases ce <;> cases sf <;> exact ⟨rfl, rfl, rfl⟩
  · cases cp <;> cases ce <;> cases sf <;> exact ⟨rfl, rfl, rfl⟩

/-- C10 witness: the characterization evaluated at the integer write 1. -/
theorem c10_flash_requires_literal_true_witness :
    (flash_on_hk_on_change true true (HKValue.pyInt 1) false).issuedFlash
      = (true && true && pyIsTrue (HKValue.pyInt 1) && !false) :=
  (c10_flash_requires_literal_true.1 true true false (HKValue.pyInt 1)).1

/-! ### Store-operation facts (claim C5) -/

theorem select_aid_some (st : BridgeState) (id_str vin : String) (a : Int)
    (hex : get_existing_aid st id_str vin = some a) : select_aid st id_str vin = (a, st) := by
  unfold select_aid
  rw [hex]

theorem select_aid_none_absent (st : BridgeState) (id_str vin : String)
    (hex : get_existing_aid st id_str vin = none)
    (hold : alGet st.accessoryConfig (identifierOf vin id_str) = none) :
    select_aid st id_str vin =
      (st.next_aid,
        { accessoryConfig := alSet st.accessoryConfig (identifierOf vin id_str)
            [("aid", ConfigValue.num st.next_aid)]
          next_aid := st.next_aid + 1 }) := by
  unfold select_aid
  rw [hex]
  simp only [hold]

theorem select_aid_none_present (st : BridgeState) (id_str vin : String) (e : ConfigEntry)
    (hex : get_existing_aid st id_str vin = none)
    (hold : alGet st.accessoryConfig (identifierOf vin id_str) = some e) :
    select_aid st id_str vin =
      (st.next_aid,
        { accessoryConfig := alSet st.accessoryConfig (identifierOf vin id_str)
            (alSet e "aid" (ConfigValue.num st.next_aid))
          next_aid := st.next_aid + 1 }) := by
  unfold select_aid
  rw [hex]
  simp only [hold]

theorem set_config_item_absent (st : BridgeState) (id_str vin config_key : String)
    (item : ConfigValue)
    (hold : alGet st.accessoryConfig (identifierOf vin id_str) = none) :
    set_config_item st id_str vin config_key item =
      { accessoryConfig := alSet st.accessoryConfig (identifierOf vin id_str)
          [(config_key, item)]
        next_aid := st.next_aid + 1 } := by
  unfold set_config_item
  simp only [hold]

theorem set_config_item_present (st : BridgeState) (id_str vin config_key : String)
    (item : ConfigValue) (e : ConfigEntry)
    (hold : alGet st.accessoryConfig (identifierOf vin id_str) = some e) :
    set_config_item st id_str vin config_key item =
      { accessoryConfig := alSet st.accessoryConfig (identifierOf vin id_str)
          (alSet e config_key item)
        next_aid := st.next_aid + 1 } := by
  unfold set_config_item
  simp only [hold]

theorem get_existing_aid_after_select (st : BridgeState) (id_str vin : String) :
    get_existing_aid (select_aid st id_str vin).2 id_str vin
      = some (select_aid st id_str vin).1 := by
  rcases hex : get_existing_aid st id_str vin with _ | a
  · rcases hold : alGet st.accessoryConfig (identifierOf vin id_str) with _ | e
    · rw [select_aid_none_absent st id_str vin hex hold]
      simp only [get_existing_aid, alGet_alSet_same]
      rfl
    · rw [select_aid_none_present st id_str vin e hex hold]
      simp only [get_existing_aid, alGet_alSet_same]
  · rw [select_aid_some st id_str vin a hex]
    exact hex

theorem storeAidInv_nil (n : Int) :
    StoreAidInv { accessoryConfig := [], next_aid := n } := by
  intro ident entry m h1 _
  simp [alGet] at h1

theorem storeAidInv_select_aid (st : BridgeState) (id_str vin : String)
    (h : StoreAidInv st) : StoreAidInv (select_aid st id_str vin).2 := by
  rcases hex : get_existing_aid st id_str vin with _ | a
  · rcases hold : alGet st.accessoryConfig (identifierOf vin id_str) with _ | e
    · rw [select_aid_none_absent st id_str vin hex hold]
      intro ident entry n h1 h2
      simp only at h1 ⊢
      by_cases hid : ident = identifierOf vin id_str
      · subst hid
        rw [alGet_alSet_same] at h1
        injection h1 with h1
        rw [← h1] at h2
        simp [alGet] at h2
        omega
      · rw [alGet_alSet_ne _ _ _ _ hid] at h1
        have := h ident entry n h1 h2
        omega
    · rw [select_aid_none_present st id_str vin e hex hold]
      intro ident entry n h1 h2
      simp only at h1 ⊢
      by_cases hid : ident = identifierOf vin id_str
      · subst hid
        rw [alGet_alSet_same] at h1
        injection h1 with h1
        rw [← h1, alGet_alSet_same] at h2
        injection h2 with h2
        injection h2 with h2
        omega
      · rw [alGet_alSet_ne _ _ _ _ hid] at h1
        have := h ident entry n h1 h2
        omega
  · rw [select_aid_some st id_str vin a hex]
    exact h

theorem storeAidInv_set_config_item (st : BridgeState) (id_str vin config_key : String)
    (item : ConfigValue) (hk : config_key ≠ "aid") (h : StoreAidInv st) :
    StoreAidInv (set_config_item st id_str vin config_key item) := by
  rcases hold : alGet st.accessoryConfig (identifierOf vin id_str) with _ | e
  · rw [set_config_item_absent st id_str vin config_key item hold]
    intro ident entry n h1 h2
    simp only at h1 ⊢
    by_cases hid : ident = identifierOf vin id_str
    · subst hid
      rw [alGet_alSet_same] at h1
      injection h1 with h1
      rw [← h1] at h2
      simp only [alGet] at h2
      rw [if_neg hk] at h2
      simp [alGet] at h2
    · rw [alGet_alSet_ne _ _ _ _ hid] at h1
      have := h ident entry n h1 h2
      omega
  · rw [set_config_item_present st id_str vin config_key item e hold]
    intro ident entry n h1 h2
    simp only at h1 ⊢
    by_cases hid : ident = identifierOf vin id_str
    · subst hid
      rw [alGet_alSet_same] at h1
      injection h1 with h1
      rw [← h1, alGet_alSet_ne _ _ _ _ (fun hh => hk hh.symm)] at h2
      have := h (identifierOf vin id_str) e n hold h2
      omega
    · rw [alGet_alSet_ne _ _ _ _ hid] at h1
      have := h ident entry n h1 h2
      omega

theorem storeAidInv_applyStoreOps :
    ∀ (ops : List StoreOp) (st : BridgeState),
      (∀ op ∈ ops, MetadataOnly op) → StoreAidInv st → StoreAidInv (applyStoreOps st ops)
  | [], _, _, h => h
  | op :: rest, st, hmeta, h => by
    have hop : MetadataOnly op := hmeta op (List.mem_cons_self op rest)
    have hrest : ∀ o ∈ rest, MetadataOnly o := fun o ho => hmeta o (List.mem_cons_of_mem op ho)
    have hstep : StoreAidInv (applyStoreOp st op) := by
      rcases op with ⟨i, v⟩ | ⟨i, v, k, item⟩
      · exact storeAidInv_select_aid st i v h
      · exact storeAidInv_set_config_item st i v k item hop h
    exact storeAidInv_applyStoreOps rest (applyStoreOp st op) hrest hstep

/-! ### Claim C5 -/

/-- C5: `select_aid` is stable — a second call for the same key returns
the same aid and leaves the store untouched — and under any interleaving
of `select_aid` calls and metadata `set_config_item` writes (which also
bump the counter), `next_aid` stays strictly greater than every aid
recorded in the store. -/
theorem c5_select_aid_stable_and_counter_dominates :
    (∀ (st : BridgeState) (id_str vin : String),
      (select_aid (select_aid st id_str vin).2 id_str vin).1
        = (select_aid st id_str vin).1 ∧
      (select_aid (select_aid st id_str vin).2 id_str vin).2
        = (select_aid st id_str vin).2) ∧
    (∀ (ops : List StoreOp) (st : BridgeState),
      (∀ op ∈ ops, MetadataOnly op) → StoreAidInv st →
        StoreAidInv (applyStoreOps st ops)) := by
  constructor
  · intro st id_str vin
    have h := get_existing_aid_after_select st id_str vin
    have h2 := select_aid_some (select_aid st id_str vin).2 id_str vin
      (select_aid st id_str vin).1 h
    exact ⟨by rw [h2], by rw [h2]⟩
  · exact storeAidInv_applyStoreOps

/-- C5 witness: one assignment followed by a metadata write keeps the
counter strictly above the recorded aid. -/
theorem c5_select_aid_stable_and_counter_dominates_witness :
    StoreAidInv (applyStoreOps freshBridge.config
      [StoreOp.selectAid "Climatization" "WVW123",
       StoreOp.setConfigItem "Climatization" "WVW123" "category" (ConfigValue.num 21)]) :=
  c5_select_aid_stable_and_counter_dominates.2
    [StoreOp.selectAid "Climatization" "WVW123",
     StoreOp.setConfigItem "Climatization" "WVW123" "category" (ConfigValue.num 21)]
    freshBridge.config
    (by
      intro op hop
      simp only [List.mem_cons, List.mem_singleton] at hop
      rcases hop with h | h | h
      · rw [h]; trivial
      · rw [h]; simp [MetadataOnly]
      · exact absurd h (List.not_mem_nil op))
    (storeAidInv_nil 100)

/-! ### Claim C7 -/

theorem getElem?_append_one {α : Type} (l : List α) (t : α) :
    (l ++ [t])[l.length]? = some t := by
  induction l with
  | nil => rfl
  | cons hd tl ih =>
    show (hd :: (tl ++ [t]))[tl.length + 1]? = some t
    rw [List.getElem?_cons_succ]
    exact ih

/-- C7 counterexample: a failing charging or window-heating on-write is
caught and answers with the 120-second fault, but performs no write on the
`On` characteristic at all (`charOnWrites = []`), so the optimistically
written value is never reverted — refuting the claim's universal revert at
these concrete inputs. -/
theorem c7_counterexample_charging_wh_no_revert :
    charging_on_hk_on_change true true (HKValue.pyInt 1) true =
      { charOnWrites := [], issued := [], rejectedLogged := false, faultRaised := true } ∧
    window_heating_on_hk_on_change true true (HKValue.pyInt 1) true =
      { charOnWrites := [], issued := [], rejectedLogged := false, faultRaised := true } :=
  ⟨rfl, rfl⟩

/-- C7 (amended): a `SetterError` raised while executing a command write
is caught inside the accessory handler (which returns normally, issuing no
command) and answered with a 120-second fault.  The door lock reverts its
target-state characteristic to the value implied by the last-known current
state (Scenario C: current locked → target back to 1, revert timer
restoring the prior fault value), the climatization handler likewise
reverts its target mode from the current state, and the flashing light
resets its switch to off — but the charging and window-heating handlers
never write their `On` characteristic, so the optimistic write is not
reverted there. -/
theorem c7_lock_setter_error_caught_reverts_faults :
    (∀ (acc : LockAcc) (value : HKValue) (now : Int),
      acc.charLockTargetState.isSome = true →
      acc.commandPresent = true →
      acc.commandEnabled = true →
      acc.fault.hasChar = true →
      (pyEqInt value 1 = true ∨ pyEqInt value 0 = true) →
      (on_hk_lock_target_state_change acc value true now).2 = [] ∧
      (on_hk_lock_target_state_change acc value true now).1.charLockTargetState =
        some (if acc.charLockCurrentState = some 1 ∨ acc.charLockCurrentState = some 3
              then (1 : Int) else 0) ∧
      (on_hk_lock_target_state_change acc value true now).1.fault.faultValue = 1 ∧
      (∃ i : Nat,
        (on_hk_lock_target_state_change acc value true now).1.fault.bank.current = some i ∧
        (on_hk_lock_target_state_change acc value true now).1.fault.bank.timers[i]? =
          some { fireAt := now + 120, payload := acc.fault.faultValue, cancelled := false })) ∧
    on_hk_lock_target_state_change lockScenarioAcc (HKValue.pyInt 1) true 0 =
      ({ lockScenarioAcc with
          charLockTargetState := some 1
          fault := { hasChar := true, faultValue := 1
                     bank := { timers := [{ fireAt := 120, payload := 0, cancelled := false }]
                               current := some 0 } } }, []) ∧
    (∀ (cp ce : Bool) (value : HKValue) (sf : Bool),
      (charging_on_hk_on_change cp ce value sf).charOnWrites = []) ∧
    (∀ (cp ce : Bool) (value : HKValue) (sf : Bool),
      (window_heating_on_hk_on_change cp ce value sf).charOnWrites = []) ∧
    charging_on_hk_on_change true true (HKValue.pyInt 0) true =
      { charOnWrites := [], issued := [], rejectedLogged := false, faultRaised := true } ∧
    window_heating_on_hk_on_change true true (HKValue.pyInt 0) true =
      { charOnWrites := [], issued := [], rejectedLogged := false, faultRaised := true } ∧
    climatization_on_hk_target_heating_cooling_state_changed (some 1) true true true
      (HKValue.pyInt 1) true =
      { charTargetWrites := [3], issued := [], rejectedLogged := false, faultRaised := true } ∧
    climatization_on_hk_target_heating_cooling_state_changed (some 0) true true true
      (HKValue.pyInt 1) true =
      { charTargetWrites := [0], issued := [], rejectedLogged := false, faultRaised := true } ∧
    flash_on_hk_on_change true true (HKValue.pyBool true) true =
      { issuedFlash := false, timerStarted := false, rejectedLogged := false
        charOnReset := true, faultRaised := true } := by
  refine ⟨?_, by decide, ?_, ?_, rfl, rfl, rfl, rfl, rfl⟩
  · intro acc value now h1 h2 h3 h4 h5
    have hred : on_hk_lock_target_state_change acc value true now
        = (lockRevertTarget acc now, []) := by
      unfold on_hk_lock_target_state_change
      rw [h1, h2, h3]
      by_cases hv1 : pyEqInt value 1 = true
      · simp [hv1]
      · have hv0 : pyEqInt value 0 = true := by
          rcases h5 with h | h
          · exact absurd h hv1
          · exact h
        simp [hv1, hv0]
    rw [hred]
    obtain ⟨curSt, tgtSt, cp, ce, fc⟩ := acc
    obtain ⟨hc, fv, bk⟩ := fc
    simp only at h4
    subst h4
    refine ⟨rfl, ?_, rfl, ?_⟩
    · unfold lockRevertTarget
      rcases curSt with _ | cur
      · simp
      · simp only
        by_cases hcond : cur = 1 ∨ cur = 3
        · rw [if_pos hcond, if_pos (by
            rcases hcond with h | h
            · exact Or.inl (by rw [h])
            · exact Or.inr (by rw [h]))]
        · rw [if_neg hcond, if_neg (by
            intro hcontra
            rcases hcontra with h | h
            · exact hcond (Or.inl (Option.some_inj.mp h))
            · exact hcond (Or.inr (Option.some_inj.mp h)))]
    · refine ⟨(cancelCurrentIfAlive bk now).timers.length, rfl, ?_⟩
      exact getElem?_append_one (cancelCurrentIfAlive bk now).timers
        { fireAt := now + 120, payload := fv, cancelled := false }
  · intro cp ce value sf
    unfold charging_on_hk_on_change
    repeat' split
    all_goals rfl
  · intro cp ce value sf
    unfold window_heating_on_hk_on_change
    repeat' split
    all_goals rfl

/-- C7 witness: the general statement applied to the Scenario C inputs. -/
theorem c7_lock_setter_error_caught_reverts_faults_witness :
    (on_hk_lock_target_state_change lockScenarioAcc (HKValue.pyInt 1) true 0).2 = [] ∧
    (on_hk_lock_target_state_change lockScenarioAcc (HKValue.pyInt 1) true 0).1.charLockTargetState =
      some (if lockScenarioAcc.charLockCurrentState = some 1
              ∨ lockScenarioAcc.charLockCurrentState = some 3
            then (1 : Int) else 0) ∧
    (on_hk_lock_target_state_change lockScenarioAcc (HKValue.pyInt 1) true 0).1.fault.faultValue = 1 ∧
    (∃ i : Nat,
      (on_hk_lock_target_state_change lockScenarioAcc (HKValue.pyInt 1) true 0).1.fault.bank.current
        = some i ∧
      (on_hk_lock_target_state_change lockScenarioAcc (HKValue.pyInt 1) true 0).1.fault.bank.timers[i]?
        = some { fireAt := 0 + 120, payload := lockScenarioAcc.fault.faultValue
                 cancelled := false }) :=
  c7_lock_setter_error_caught_reverts_faults.1 lockScenarioAcc (HKValue.pyInt 1) 0
    (by decide) (by decide) (by decide) (by decide) (Or.inl (by decide))

/-! ### Timer-bank facts (claim C6) -/

theorem getElem?_append_one_cases {α : Type} (l : List α) (x : α) :
    ∀ i : Nat, (l ++ [x])[i]? =
      if i < l.length then l[i]? else if i = l.length then some x else none := by
  induction l with
  | nil =>
    intro i
    cases i with
    | zero => simp
    | succ i2 => simp
  | cons hd tl ih =>
    intro i
    cases i with
    | zero => simp
    | succ i2 =>
      show (hd :: (tl ++ [x]))[i2 + 1]? = _
      rw [List.getElem?_cons_succ, ih i2, List.getElem?_cons_succ]
      simp only [List.length_cons]
      by_cases h1 : i2 < tl.length
      · rw [if_pos h1, if_pos (by omega)]
      · rw [if_neg h1, if_neg (show ¬(i2 + 1 < tl.length + 1) by omega)]
        by_cases h2 : i2 = tl.length
        · rw [if_pos h2, if_pos (by omega)]
        · rw [if_neg h2, if_neg (show ¬(i2 + 1 = tl.length + 1) by omega)]

theorem cancelIdx_getElem? {α : Type} :
    ∀ (l : List (SchedTimer α)) (i j : Nat),
      (cancelIdx l i)[j]? =
        if i = j then (l[j]?).map (fun t => { t with cancelled := true }) else l[j]?
  | [], i, j => by cases i <;> cases j <;> simp [cancelIdx]
  | hd :: tl, 0, 0 => by simp [cancelIdx]
  | hd :: tl, 0, j + 1 => by simp [cancelIdx]
  | hd :: tl, i + 1, 0 => by simp [cancelIdx]
  | hd :: tl, i + 1, j + 1 => by
    show (hd :: cancelIdx tl i)[j + 1]? = _
    rw [List.getElem?_cons_succ, List.getElem?_cons_succ, cancelIdx_getElem? tl i j]
    by_cases h : i = j
    · rw [if_pos h, if_pos (by omega)]
    · rw [if_neg h, if_neg (by omega)]

theorem timerAlive_cancelled {α : Type} (t : SchedTimer α) (now : Int) :
    timerAlive { t with cancelled := true } now = false := by
  simp [timerAlive]

theorem timerAlive_of_le {α : Type} (tm : SchedTimer α) (t t' : Int) (h : t ≤ t')
    (ha : timerAlive tm t' = true) : timerAlive tm t = true := by
  simp only [timerAlive, Bool.and_eq_true, decide_eq_true_eq] at ha ⊢
  exact ⟨ha.1, by omega⟩

theorem BankInv_mono {α : Type} (b : TimerBank α) (t t' : Int) (h : t ≤ t')
    (hinv : BankInv b t) : BankInv b t' :=
  fun i ti hget halive => hinv i ti hget (timerAlive_of_le ti t t' h halive)

theorem BankInv_of_DeadBank {α : Type} (b : TimerBank α) (t : Int)
    (h : DeadBank b t) : BankInv b t := by
  intro i ti hget halive
  rw [h i ti hget] at halive
  exact absurd halive (by simp)

theorem BankInv_nil {α : Type} (c : Option Nat) (t : Int) :
    BankInv ({ timers := [], current := c } : TimerBank α) t := by
  intro i ti hget _
  simp at hget

theorem DeadBank_of_BankInv_not_current {α : Type} (b : TimerBank α) (t : Int)
    (hinv : BankInv b t) (hnc : ∀ i : Nat, b.current ≠ some i) : DeadBank b t := by
  intro i ti hget
  cases hA : timerAlive ti t
  · rfl
  · exact absurd (hinv i ti hget hA) (hnc i)

theorem cancelCurrent_none {α : Type} (b : TimerBank α) (h : b.current = none) :
    cancelCurrent b = b := by
  unfold cancelCurrent
  rw [h]

theorem cancelCurrent_some {α : Type} (b : TimerBank α) (c : Nat) (h : b.current = some c) :
    cancelCurrent b = { timers := cancelIdx b.timers c, current := none } := by
  unfold cancelCurrent
  rw [h]

theorem cancelCurrentIfAlive_none {α : Type} (b : TimerBank α) (now : Int)
    (h : b.current = none) : cancelCurrentIfAlive b now = b := by
  unfold cancelCurrentIfAlive
  rw [h]

theorem cancelCurrentIfAlive_missing {α : Type} (b : TimerBank α) (now : Int) (c : Nat)
    (h : b.current = some c) (h2 : b.timers[c]? = none) : cancelCurrentIfAlive b now = b := by
  unfold cancelCurrentIfAlive
  rw [h]
  show (match b.timers[c]? with
    | none => b
    | some t => if timerAlive t now = true then
        { timers := cancelIdx b.timers c, current := none } else b) = b
  rw [h2]

theorem cancelCurrentIfAlive_alive {α : Type} (b : TimerBank α) (now : Int) (c : Nat)
    (tc : SchedTimer α) (h : b.current = some c) (h2 : b.timers[c]? = some tc)
    (ha : timerAlive tc now = true) :
    cancelCurrentIfAlive b now = { timers := cancelIdx b.timers c, current := none } := by
  unfold cancelCurrentIfAlive
  rw [h]
  show (match b.timers[c]? with
    | none => b
    | some t => if timerAlive t now = true then
        { timers := cancelIdx b.timers c, current := none } else b)
    = { timers := cancelIdx b.timers c, current := none }
  rw [h2]
  show (if timerAlive tc now = true then
      ({ timers := cancelIdx b.timers c, current := none } : TimerBank α) else b)
    = { timers := cancelIdx b.timers c, current := none }
  rw [if_pos ha]

theorem cancelCurrentIfAlive_stale {α : Type} (b : TimerBank α) (now : Int) (c : Nat)
    (tc : SchedTimer α) (h : b.current = some c) (h2 : b.timers[c]? = some tc)
    (ha : ¬timerAlive tc now = true) : cancelCurrentIfAlive b now = b := by
  unfold cancelCurrentIfAlive
  rw [h]
  show (match b.timers[c]? with
    | none => b
    | some t => if timerAlive t now = true then
        { timers := cancelIdx b.timers c, current := none } else b) = b
  rw [h2]
  show (if timerAlive tc now = true then
      ({ timers := cancelIdx b.timers c, current := none } : TimerBank α) else b) = b
  rw [if_neg ha]

theorem dead_cancelIdx_current {α : Type} (b : TimerBank α) (t : Int) (c : Nat)
    (hinv : BankInv b t) (hc : b.current = some c) :
    DeadBank ({ timers := cancelIdx b.timers c, current := none } : TimerBank α) t := by
  intro i ti hget
  have hget2 : (cancelIdx b.timers c)[i]? = some ti := hget
  rw [cancelIdx_getElem?] at hget2
  by_cases hic : c = i
  · rw [if_pos hic] at hget2
    rcases horig : b.timers[i]? with _ | torig
    · rw [horig] at hget2
      exact Option.noConfusion hget2
    · rw [horig] at hget2
      injection hget2 with hget2
      rw [← hget2]
      exact timerAlive_cancelled torig t
  · rw [if_neg hic] at hget2
    cases hA : timerAlive ti t
    · rfl
    · have := hinv i ti hget2 hA
      rw [hc] at this
      injection this with this
      exact absurd this hic

theorem dead_cancelCurrent {α : Type} (b : TimerBank α) (t : Int)
    (h : BankInv b t) : DeadBank (cancelCurrent b) t := by
  rcases hc : b.current with _ | c
  · rw [cancelCurrent_none b hc]
    have hnc : ∀ i : Nat, b.current ≠ some i := by
      intro i hcontra
      rw [hc] at hcontra
      exact Option.noConfusion hcontra
    exact DeadBank_of_BankInv_not_current b t h hnc
  · rw [cancelCurrent_some b c hc]
    exact dead_cancelIdx_current b t c h hc

theorem dead_cancelCurrentIfAlive {α : Type} (b : TimerBank α) (now : Int)
    (h : BankInv b now) : DeadBank (cancelCurrentIfAlive b now) now := by
  rcases hc : b.current with _ | c
  · rw [cancelCurrentIfAlive_none b now hc]
    have hnc : ∀ i : Nat, b.current ≠ some i := by
      intro i hcontra
      rw [hc] at hcontra
      exact Option.noConfusion hcontra
    exact DeadBank_of_BankInv_not_current b now h hnc
  · rcases hcur : b.timers[c]? with _ | tc
    · rw [cancelCurrentIfAlive_missing b now c hc hcur]
      intro i ti hget
      cases hA : timerAlive ti now
      · rfl
      · have := h i ti hget hA
        rw [hc] at this
        injection this with this
        rw [← this] at hget
        rw [hcur] at hget
        exact Option.noConfusion hget
    · by_cases halivec : timerAlive tc now = true
      · rw [cancelCurrentIfAlive_alive b now c tc hc hcur halivec]
        exact dead_cancelIdx_current b now c h hc
      · rw [cancelCurrentIfAlive_stale b now c tc hc hcur halivec]
        intro i ti hget
        cases hA : timerAlive ti now
        · rfl
        · have := h i ti hget hA
          rw [hc] at this
          injection this with this
          rw [← this] at hget
          rw [hcur] at hget
          injection hget with hget
          rw [hget] at halivec
          exact absurd hA halivec

theorem BankInv_scheduleTimer {α : Type} (b : TimerBank α) (t fireAt : Int) (p : α)
    (h : DeadBank b t) : BankInv (scheduleTimer b fireAt p) t := by
  intro i ti hget halive
  simp only [scheduleTimer] at hget ⊢
  rw [getElem?_append_one_cases] at hget
  by_cases h1 : i < b.timers.length
  · rw [if_pos h1] at hget
    rw [h i ti hget] at halive
    exact absurd halive (by simp)
  · rw [if_neg h1] at hget
    by_cases h2 : i = b.timers.length
    · rw [h2]
    · rw [if_neg h2] at hget
      exact absurd hget (by simp)

theorem set_status_fault_step (fc : FaultChar) (now v timeout : Int) (tv : Option Int)
    (h : BankInv fc.bank now) : BankInv (set_status_fault fc now v timeout tv).bank now := by
  obtain ⟨hc, fv, bk⟩ := fc
  cases hc
  · exact h
  · simp only at h
    by_cases ht : timeout = 0
    · subst ht
      show BankInv (cancelCurrentIfAlive bk now) now
      exact BankInv_of_DeadBank _ _ (dead_cancelCurrentIfAlive bk now h)
    · have hb : (set_status_fault ⟨true, fv, bk⟩ now v timeout tv).bank
          = scheduleTimer (cancelCurrentIfAlive bk now) (now + timeout) (tv.getD fv) := by
        simp only [set_status_fault, if_neg ht, if_true]
      rw [hb]
      exact BankInv_scheduleTimer _ now (now + timeout) _
        (dead_cancelCurrentIfAlive bk now h)

theorem update_remaining_duration_step (cc : CountdownChar) (now : Int)
    (h : BankInv cc.bank now) : BankInv (update_remaining_duration cc now).bank now := by
  have hdead := dead_cancelCurrent cc.bank now h
  simp only [update_remaining_duration]
  split
  · split
    · exact BankInv_scheduleTimer (cancelCurrent cc.bank) now (now + 5) () hdead
    · exact BankInv_of_DeadBank _ _ hdead
  · exact BankInv_of_DeadBank _ _ hdead

theorem applyCountdownEvent_step (cc : CountdownChar) (e : CountdownEvent)
    (h : BankInv cc.bank (countdownEventTime e)) :
    BankInv (applyCountdownEvent cc e).bank (countdownEventTime e) := by
  rcases e with t | ⟨t, est⟩ | t
  · exact update_remaining_duration_step cc t h
  · simp only [applyCountdownEvent, countdownEventTime] at h ⊢
    split
    · exact update_remaining_duration_step { cc with estimated_date_reached := some est } t h
    · exact h
  · simp only [applyCountdownEvent, countdownEventTime] at h ⊢
    split
    · exact h
    · exact h

theorem runFaultCalls_inv :
    ∀ (calls : List FaultCall) (fc : FaultChar) (t0 : Int),
      BankInv fc.bank t0 → ChronoFault t0 calls →
      BankInv (runFaultCalls fc calls).bank (lastFaultTime t0 calls)
  | [], _, _, h, _ => h
  | c :: rest, fc, t0, h, hchrono => by
    obtain ⟨h1, h2⟩ := hchrono
    have hR : BankInv fc.bank c.time := BankInv_mono fc.bank t0 c.time h1 h
    have hstep := set_status_fault_step fc c.time c.value c.timeout c.timeout_value hR
    exact runFaultCalls_inv rest _ c.time hstep h2

theorem runCountdownEvents_inv :
    ∀ (events : List CountdownEvent) (cc : CountdownChar) (t0 : Int),
      BankInv cc.bank t0 → ChronoCountdown t0 events →
      BankInv (runCountdownEvents cc events).bank (lastCountdownTime t0 events)
  | [], _, _, h, _ => h
  | e :: rest, cc, t0, h, hchrono => by
    obtain ⟨h1, h2⟩ := hchrono
    have hR : BankInv cc.bank (countdownEventTime e) :=
      BankInv_mono cc.bank t0 (countdownEventTime e) h1 h
    have hstep := applyCountdownEvent_step cc e hR
    exact runCountdownEvents_inv rest _ (countdownEventTime e) hstep h2

theorem AtMostOneLive_of_BankInv {α : Type} (b : TimerBank α) (t : Int)
    (h : BankInv b t) : AtMostOneLive b t := by
  intro i j ti tj hgi hgj hai haj
  have h1 := h i ti hgi hai
  have h2 := h j tj hgj haj
  rw [h1] at h2
  injection h2

/-! ### Claim C6 -/

/-- C6: after any chronological sequence of `set_status_fault` calls, at
most one fault-revert timer is live, and after any chronological sequence
of countdown events, at most one recompute timer is live (each operation
cancels the referenced timer before scheduling anew); in the concrete
fault scenario, `set_fault(1, timeout=120)` at time 0 and again at time 60
leaves the first timer cancelled and exactly one live revert firing at
time 180 — 120 seconds after the second call. -/
theorem c6_at_most_one_timer :
    (∀ (fc : FaultChar) (calls : List FaultCall) (t0 t : Int),
      BankInv fc.bank t0 → ChronoFault t0 calls → lastFaultTime t0 calls ≤ t →
      AtMostOneLive (runFaultCalls fc calls).bank t) ∧
    (∀ (cc : CountdownChar) (events : List CountdownEvent) (t0 t : Int),
      BankInv cc.bank t0 → ChronoCountdown t0 events → lastCountdownTime t0 events ≤ t →
      AtMostOneLive (runCountdownEvents cc events).bank t) ∧
    ((runFaultCalls initFaultChar faultScenarioCalls).bank =
      { timers := [{ fireAt := 120, payload := 0, cancelled := true },
                   { fireAt := 180, payload := 1, cancelled := false }]
        current := some 1 } ∧
     liveCount (runFaultCalls initFaultChar faultScenarioCalls).bank 60 = 1 ∧
     (runCountdownEvents initCountdownChar
        [CountdownEvent.newEstimate 0 100, CountdownEvent.newEstimate 0 100]).bank =
      { timers := [{ fireAt := 5, payload := (), cancelled := true },
                   { fireAt := 5, payload := (), cancelled := false }]
        current := some 1 }) := by
  refine ⟨?_, ?_, by decide, by decide, by decide⟩
  · intro fc calls t0 t h hchrono hle
    exact AtMostOneLive_of_BankInv _ t
      (BankInv_mono _ (lastFaultTime t0 calls) t hle (runFaultCalls_inv calls fc t0 h hchrono))
  · intro cc events t0 t h hchrono hle
    exact AtMostOneLive_of_BankInv _ t
      (BankInv_mono _ (lastCountdownTime t0 events) t hle
        (runCountdownEvents_inv events cc t0 h hchrono))

/-- C6 witness: the at-most-one-live statement applied to the two-call
fault scenario, observed at the time of the second call. -/
theorem c6_at_most_one_timer_witness :
    AtMostOneLive (runFaultCalls initFaultChar faultScenarioCalls).bank 60 :=
  c6_at_most_one_timer.1 initFaultChar faultScenarioCalls 0 60
    (BankInv_nil none 0) ⟨by decide, by decide, trivial⟩ (by decide)

/-! ### Store frame lemmas (claim C4) -/

theorem get_existing_aid_eq_aidAt (st : BridgeState) (id_str vin : String) :
    get_existing_aid st id_str vin = aidAt st.accessoryConfig (identifierOf vin id_str) := rfl

theorem storeAidInv_aidAt (st : BridgeState) (h : StoreAidInv st) (ident : String) (n : Int)
    (ha : aidAt st.accessoryConfig ident = some n) : n < st.next_aid := by
  unfold aidAt at ha
  rcases he : alGet st.accessoryConfig ident with _ | entry
  · rw [he] at ha
    exact Option.noConfusion ha
  · rw [he] at ha
    have ha2 : (match alGet entry "aid" with
      | some (ConfigValue.num m) => some m
      | _ => none) = some n := ha
    rcases hv : alGet entry "aid" with _ | v
    · rw [hv] at ha2
      exact Option.noConfusion ha2
    · rcases v with m | s | l
      · rw [hv] at ha2
        injection ha2 with ha2
        rw [← ha2]
        exact h ident entry m he hv
      · rw [hv] at ha2
        exact Option.noConfusion ha2
      · rw [hv] at ha2
        exact Option.noConfusion ha2

theorem aidAt_select_aid_frame (st : BridgeState) (i2 v2 : String) (ident : String)
    (hid : ident ≠ identifierOf v2 i2) :
    aidAt (select_aid st i2 v2).2.accessoryConfig ident = aidAt st.accessoryConfig ident := by
  rcases hex : get_existing_aid st i2 v2 with _ | a
  · rcases hold : alGet st.accessoryConfig (identifierOf v2 i2) with _ | e
    · rw [select_aid_none_absent st i2 v2 hex hold]
      unfold aidAt
      rw [alGet_alSet_ne _ _ _ _ hid]
    · rw [select_aid_none_present st i2 v2 e hex hold]
      unfold aidAt
      rw [alGet_alSet_ne _ _ _ _ hid]
  · rw [select_aid_some st i2 v2 a hex]

theorem aidAt_select_aid_self_none (st : BridgeState) (i2 v2 : String)
    (hex : get_existing_aid st i2 v2 = none) :
    aidAt (select_aid st i2 v2).2.accessoryConfig (identifierOf v2 i2)
      = some st.next_aid := by
  rcases hold : alGet st.accessoryConfig (identifierOf v2 i2) with _ | e
  · rw [select_aid_none_absent st i2 v2 hex hold]
    simp only [aidAt, alGet_alSet_same]
    simp [alGet]
  · rw [select_aid_none_present st i2 v2 e hex hold]
    simp only [aidAt, alGet_alSet_same]

theorem select_aid_fst_none (st : BridgeState) (i2 v2 : String)
    (hex : get_existing_aid st i2 v2 = none) :
    (select_aid st i2 v2).1 = st.next_aid := by
  rcases hold : alGet st.accessoryConfig (identifierOf v2 i2) with _ | e
  · rw [select_aid_none_absent st i2 v2 hex hold]
  · rw [select_aid_none_present st i2 v2 e hex hold]

theorem aidAt_set_config_item (st : BridgeState) (i2 v2 k : String) (item : ConfigValue)
    (hk : k ≠ "aid") (ident : String) :
    aidAt (set_config_item st i2 v2 k item).accessoryConfig ident
      = aidAt st.accessoryConfig ident := by
  by_cases hid : ident = identifierOf v2 i2
  · subst hid
    rcases hold : alGet st.accessoryConfig (identifierOf v2 i2) with _ | e
    · rw [set_config_item_absent st i2 v2 k item hold]
      simp only [aidAt, alGet_alSet_same, hold]
      simp [alGet, hk]
    · rw [set_config_item_present st i2 v2 k item e hold]
      simp only [aidAt, alGet_alSet_same, hold]
      rw [alGet_alSet_ne _ _ _ _ (fun hh => hk hh.symm)]
  · rcases hold : alGet st.accessoryConfig (identifierOf v2 i2) with _ | e
    · rw [set_config_item_absent st i2 v2 k item hold]
      unfold aidAt
      rw [alGet_alSet_ne _ _ _ _ hid]
    · rw [set_config_item_present st i2 v2 k item e hold]
      unfold aidAt
      rw [alGet_alSet_ne _ _ _ _ hid]

theorem storeAidInj_nil (n : Int) :
    StoreAidInj { accessoryConfig := [], next_aid := n } := by
  intro i1 i2 n1 n2 h1 _ _
  simp [aidAt, alGet] at h1

theorem storeAidInj_select_aid (st : BridgeState) (i v : String)
    (hinv : StoreAidInv st) (hinj : StoreAidInj st) :
    StoreAidInj (select_aid st i v).2 := by
  rcases hex : get_existing_aid st i v with _ | a
  · intro i1 i2 n1 n2 h1 h2 hne
    by_cases hi1 : i1 = identifierOf v i
    · subst hi1
      rw [aidAt_select_aid_self_none st i v hex] at h1
      injection h1 with h1
      have hi2 : i2 ≠ identifierOf v i := fun hh => hne (hh.symm ▸ rfl)
      rw [aidAt_select_aid_frame st i v i2 hi2] at h2
      have := storeAidInv_aidAt st hinv i2 n2 h2
      omega
    · rw [aidAt_select_aid_frame st i v i1 hi1] at h1
      by_cases hi2 : i2 = identifierOf v i
      · subst hi2
        rw [aidAt_select_aid_self_none st i v hex] at h2
        injection h2 with h2
        have := storeAidInv_aidAt st hinv i1 n1 h1
        omega
      · rw [aidAt_select_aid_frame st i v i2 hi2] at h2
        exact hinj i1 i2 n1 n2 h1 h2 hne
  · rw [select_aid_some st i v a hex]
    exact hinj

theorem storeAidInj_set_config_item (st : BridgeState) (i v k : String) (item : ConfigValue)
    (hk : k ≠ "aid") (hinj : StoreAidInj st) :
    StoreAidInj (set_config_item st i v k item) := by
  intro i1 i2 n1 n2 h1 h2 hne
  rw [aidAt_set_config_item st i v k item hk i1] at h1
  rw [aidAt_set_config_item st i v k item hk i2] at h2
  exact hinj i1 i2 n1 n2 h1 h2 hne

/-! ### Capability-block lemmas (claim C4) -/

theorem string_append_cancel_left (a b c : String) (h : a ++ b = a ++ c) : b = c := by
  have hd : a.data ++ b.data = a.data ++ c.data := by
    rw [← String.data_append, ← String.data_append, h]
  exact String.ext (List.append_cancel_left hd)

theorem identifierOf_inj (vin a b : String) (h : identifierOf vin a = identifierOf vin b) :
    a = b := by
  unfold identifierOf at h
  rw [String.append_assoc, String.append_assoc] at h
  have h2 := string_append_cancel_left vin ("-" ++ a) ("-" ++ b) h
  exact string_append_cancel_left "-" a b h2

theorem capSpecs_pairwise (vin : String) :
    List.Pairwise (fun s1 s2 => identifierOf vin s1.idStr ≠ identifierOf vin s2.idStr)
      capSpecs := by
  have hpw : List.Pairwise (fun s1 s2 : CapSpec => s1.idStr ≠ s2.idStr) capSpecs := by
    decide
  exact hpw.imp (fun hne heq => hne (identifierOf_inj vin _ _ heq))

theorem capNeedInstall_false_iff (st : BridgeFull) (vin : String) (spec : CapSpec) :
    capNeedInstall st vin spec = false ↔ capInstalled vin st spec := by
  unfold capNeedInstall capInstalled
  rcases hex : get_existing_aid st.config spec.idStr vin with _ | a
  · constructor
    · intro h
      exact Bool.noConfusion h
    · rintro ⟨a, ha, _⟩
      exact Option.noConfusion ha
  · have hred : (match (some a : Option Int) with
        | none => true
        | some a =>
          match alGet st.accessories a with
          | none => true
          | some k => decide (k ≠ spec.kind)) =
        (match alGet st.accessories a with
          | none => true
          | some k => decide (k ≠ spec.kind)) := rfl
    rw [hred]
    rcases hreg : alGet st.accessories a with _ | k
    · constructor
      · intro h
        exact Bool.noConfusion h
      · rintro ⟨a2, ha2, hk2⟩
        injection ha2 with ha2
        rw [← ha2, hreg] at hk2
        exact Option.noConfusion hk2
    · constructor
      · intro h
        have h2 : decide (k ≠ spec.kind) = false := h
        simp only [decide_eq_false_iff_not, not_not] at h2
        exact ⟨a, rfl, by rw [hreg, h2]⟩
      · rintro ⟨a2, ha2, hk2⟩
        injection ha2 with ha2
        rw [← ha2, hreg] at hk2
        injection hk2 with hk2
        show decide (k ≠ spec.kind) = false
        simp [hk2]

theorem capPass_skip_guard (it : List String) (v : Vehicle) (vin : String)
    (acc : BridgeFull × List (Int × AccessoryKind)) (spec : CapSpec)
    (hg : capGuard it v vin acc.1 spec = false) : capPass it v vin acc spec = acc := by
  simp [capPass, hg]

theorem capGuard_false_of_settled (it : List String) (v : Vehicle) (vin : String)
    (st : BridgeFull) (spec : CapSpec) (h : capSettled it v vin st spec) :
    capGuard it v vin st spec = false := by
  unfold capGuard
  rcases h with h | h | h
  · rw [h]
    simp only [Bool.not_true, Bool.false_and]
  · rw [h]
    simp only [Bool.and_false, Bool.false_and]
  · have hni := (capNeedInstall_false_iff st vin spec).mpr h
    rw [hni]
    simp only [Bool.and_false]

theorem capSettled_of_guard_false (it : List String) (v : Vehicle) (vin : String)
    (st : BridgeFull) (spec : CapSpec) (hg : capGuard it v vin st spec = false) :
    capSettled it v vin st spec := by
  unfold capGuard at hg
  cases hcont : it.contains spec.idStr
  · cases havail : spec.available v
    · right; left
      exact havail
    · cases hneed : capNeedInstall st vin spec
      · right; right
        exact (capNeedInstall_false_iff st vin spec).mp hneed
      · rw [hcont, havail, hneed] at hg
        exact absurd hg (by decide)
  · left
    exact hcont

theorem capPass_skip (it : List String) (v : Vehicle) (vin : String)
    (acc : BridgeFull × List (Int × AccessoryKind)) (spec : CapSpec)
    (h : capSettled it v vin acc.1 spec) : capPass it v vin acc spec = acc :=
  capPass_skip_guard it v vin acc spec (capGuard_false_of_settled it v vin acc.1 spec h)

theorem capPass_install (it : List String) (v : Vehicle) (vin : String)
    (acc : BridgeFull × List (Int × AccessoryKind)) (spec : CapSpec)
    (hg : capGuard it v vin acc.1 spec = true) :
    capPass it v vin acc spec =
      ({ acc.1 with
          config := set_config_item
            (set_config_item (select_aid acc.1.config spec.idStr vin).2
              spec.idStr vin "category" (ConfigValue.num spec.category))
            spec.idStr vin "services" (ConfigValue.strs (spec.services v))
          accessories :=
            alSet acc.1.accessories (select_aid acc.1.config spec.idStr vin).1 spec.kind },
       acc.2 ++ [((select_aid acc.1.config spec.idStr vin).1, spec.kind)]) := by
  simp [capPass, hg]

theorem fullStoreInv_capPass (it : List String) (v : Vehicle) (vin : String)
    (acc : BridgeFull × List (Int × AccessoryKind)) (spec : CapSpec)
    (h : FullStoreInv acc.1) : FullStoreInv (capPass it v vin acc spec).1 := by
  by_cases hg : capGuard it v vin acc.1 spec = true
  · rw [capPass_install it v vin acc spec hg]
    obtain ⟨hinv, hinj⟩ := h
    constructor
    · exact storeAidInv_set_config_item _ _ _ _ _ (by decide)
        (storeAidInv_set_config_item _ _ _ _ _ (by decide)
          (storeAidInv_select_aid _ _ _ hinv))
    · exact storeAidInj_set_config_item _ _ _ _ _ (by decide)
        (storeAidInj_set_config_item _ _ _ _ _ (by decide)
          (storeAidInj_select_aid _ _ _ hinv hinj))
  · rw [capPass_skip_guard it v vin acc spec (by
      cases hgc : capGuard it v vin acc.1 spec
      · rfl
      · exact absurd hgc hg)]
    exact h

theorem capInstalled_after_install (it : List String) (v : Vehicle) (vin : String)
    (acc : BridgeFull × List (Int × AccessoryKind)) (spec : CapSpec)
    (hg : capGuard it v vin acc.1 spec = true) :
    capInstalled vin (capPass it v vin acc spec).1 spec := by
  rw [capPass_install it v vin acc spec hg]
  refine ⟨(select_aid acc.1.config spec.idStr vin).1, ?_, ?_⟩
  · show get_existing_aid _ spec.idStr vin = _
    rw [get_existing_aid_eq_aidAt]
    rw [aidAt_set_config_item _ _ _ _ _ (by decide)]
    rw [aidAt_set_config_item _ _ _ _ _ (by decide)]
    rw [← get_existing_aid_eq_aidAt]
    exact get_existing_aid_after_select acc.1.config spec.idStr vin
  · show alGet (alSet acc.1.accessories _ spec.kind) _ = some spec.kind
    exact alGet_alSet_same _ _ _

theorem capInstalled_preserved (it : List String) (v : Vehicle) (vin : String)
    (acc : BridgeFull × List (Int × AccessoryKind)) (spec spec' : CapSpec)
    (hid : identifierOf vin spec'.idStr ≠ identifierOf vin spec.idStr)
    (hinv : FullStoreInv acc.1) (h : capInstalled vin acc.1 spec') :
    capInstalled vin (capPass it v vin acc spec).1 spec' := by
  by_cases hg : capGuard it v vin acc.1 spec = true
  · rw [capPass_install it v vin acc spec hg]
    obtain ⟨a, ha, hk⟩ := h
    refine ⟨a, ?_, ?_⟩
    · show get_existing_aid _ spec'.idStr vin = some a
      rw [get_existing_aid_eq_aidAt]
      rw [aidAt_set_config_item _ _ _ _ _ (by decide)]
      rw [aidAt_set_config_item _ _ _ _ _ (by decide)]
      rw [aidAt_select_aid_frame acc.1.config spec.idStr vin _ hid]
      rw [← get_existing_aid_eq_aidAt]
      exact ha
    · show alGet (alSet acc.1.accessories _ spec.kind) a = some spec'.kind
      have hne : a ≠ (select_aid acc.1.config spec.idStr vin).1 := by
        rcases hex : get_existing_aid acc.1.config spec.idStr vin with _ | a2
        · rw [select_aid_fst_none acc.1.config spec.idStr vin hex]
          have := storeAidInv_aidAt acc.1.config hinv.1
            (identifierOf vin spec'.idStr) a (by rw [← get_existing_aid_eq_aidAt]; exact ha)
          omega
        · rw [select_aid_some acc.1.config spec.idStr vin a2 hex]
          exact hinv.2 (identifierOf vin spec'.idStr) (identifierOf vin spec.idStr) a a2
            (by rw [← get_existing_aid_eq_aidAt]; exact ha)
            (by rw [← get_existing_aid_eq_aidAt]; exact hex)
            hid
      rw [alGet_alSet_ne _ _ _ _ hne]
      exact hk
  · rw [capPass_skip_guard it v vin acc spec (by
      cases hgc : capGuard it v vin acc.1 spec
      · rfl
      · exact absurd hgc hg)]
    exact h

theorem capSettled_preserved (it : List String) (v : Vehicle) (vin : String)
    (acc : BridgeFull × List (Int × AccessoryKind)) (spec spec' : CapSpec)
    (hid : identifierOf vin spec'.idStr ≠ identifierOf vin spec.idStr)
    (hinv : FullStoreInv acc.1) (h : capSettled it v vin acc.1 spec') :
    capSettled it v vin (capPass it v vin acc spec).1 spec' := by
  rcases h with h | h | h
  · left; exact h
  · right; left; exact h
  · right; right
    exact capInstalled_preserved it v vin acc spec spec' hid hinv h

/-! ### Fold and pass-level lemmas (claim C4) -/

theorem foldl_capPass_main (it : List String) (v : Vehicle) (vin : String) :
    ∀ (specs : List CapSpec) (acc : BridgeFull × List (Int × AccessoryKind)),
      FullStoreInv acc.1 →
      List.Pairwise (fun s1 s2 => identifierOf vin s1.idStr ≠ identifierOf vin s2.idStr)
        specs →
      FullStoreInv (List.foldl (capPass it v vin) acc specs).1 ∧
      (∀ spec ∈ specs,
        capSettled it v vin (List.foldl (capPass it v vin) acc specs).1 spec) ∧
      (∀ spec' : CapSpec,
        (∀ s ∈ specs, identifierOf vin spec'.idStr ≠ identifierOf vin s.idStr) →
        capSettled it v vin acc.1 spec' →
        capSettled it v vin (List.foldl (capPass it v vin) acc specs).1 spec')
  | [], acc, hinv, _ =>
    ⟨hinv, fun spec hmem => absurd hmem (List.not_mem_nil spec), fun _ _ h => h⟩
  | s :: rest, acc, hinv, hpw => by
    obtain ⟨hhead, hrestpw⟩ := List.pairwise_cons.mp hpw
    have hinv1 : FullStoreInv (capPass it v vin acc s).1 :=
      fullStoreInv_capPass it v vin acc s hinv
    have hsettled1 : capSettled it v vin (capPass it v vin acc s).1 s := by
      cases hg : capGuard it v vin acc.1 s
      · rw [capPass_skip_guard it v vin acc s hg]
        exact capSettled_of_guard_false it v vin acc.1 s hg
      · right; right
        exact capInstalled_after_install it v vin acc s hg
    obtain ⟨hA, hB, hC⟩ :=
      foldl_capPass_main it v vin rest (capPass it v vin acc s) hinv1 hrestpw
    refine ⟨hA, ?_, ?_⟩
    · intro spec hmem
      rcases List.mem_cons.mp hmem with h | h
      · subst h
        exact hC spec (fun t ht => hhead t ht) hsettled1
      · exact hB spec h
    · intro spec' hdist hset
      have hset1 : capSettled it v vin (capPass it v vin acc s).1 spec' :=
        capSettled_preserved it v vin acc s spec'
          (hdist s (List.mem_cons_self s rest)) hinv hset
      exact hC spec' (fun t ht => hdist t (List.mem_cons_of_mem s ht)) hset1

theorem foldl_capPass_skip_all (it : List String) (v : Vehicle) (vin : String) :
    ∀ (specs : List CapSpec) (st : BridgeFull) (l : List (Int × AccessoryKind)),
      (∀ spec ∈ specs, capSettled it v vin st spec) →
      List.foldl (capPass it v vin) (st, l) specs = (st, l)
  | [], _, _, _ => rfl
  | s :: rest, st, l, h => by
    show List.foldl (capPass it v vin) (capPass it v vin (st, l) s) rest = (st, l)
    rw [capPass_skip it v vin (st, l) s (h s (List.mem_cons_self s rest))]
    exact foldl_capPass_skip_all it v vin rest st l
      (fun t ht => h t (List.mem_cons_of_mem s ht))

theorem update_not_enabled (iv it : List String) (st : BridgeFull) (v : Vehicle)
    (hv : (v.enabled && v.vin.enabled) = false) : update iv it st v = (st, []) := by
  simp [update, hv]

theorem update_no_vin (iv it : List String) (st : BridgeFull) (v : Vehicle)
    (hv : (v.enabled && v.vin.enabled) = true) (hvin : v.vin.value = none) :
    update iv it st v = (st, []) := by
  simp [update, hv, hvin]

theorem update_ignored (iv it : List String) (st : BridgeFull) (v : Vehicle) (vin : String)
    (hv : (v.enabled && v.vin.enabled) = true) (hvin : v.vin.value = some vin)
    (hig : iv.contains vin = true) : update iv it st v = (st, []) := by
  simp only [update, hv, hvin]
  rw [if_pos trivial, if_pos hig]

theorem update_run (iv it : List String) (st : BridgeFull) (v : Vehicle) (vin : String)
    (hv : (v.enabled && v.vin.enabled) = true) (hvin : v.vin.value = some vin)
    (hig : iv.contains vin = false) :
    update iv it st v =
      (if (List.foldl (capPass it v vin) (st, []) capSpecs).2.isEmpty then
        List.foldl (capPass it v vin) (st, []) capSpecs
      else
        ({ (List.foldl (capPass it v vin) (st, []) capSpecs).1 with
            notifyCalls :=
              (List.foldl (capPass it v vin) (st, []) capSpecs).1.notifyCalls + 1 },
         (List.foldl (capPass it v vin) (st, []) capSpecs).2)) := by
  have hne : ¬iv.contains vin = true := by
    rw [hig]
    exact fun h => Bool.noConfusion h
  simp only [update, hv, hvin]
  rw [if_pos trivial, if_neg hne]

theorem update_pass_settles (iv it : List String) (st : BridgeFull) (v : Vehicle)
    (hinv : FullStoreInv st) :
    update iv it (update iv it st v).1 v = ((update iv it st v).1, []) := by
  cases hv : (v.enabled && v.vin.enabled)
  · rw [update_not_enabled iv it st v hv]
    exact update_not_enabled iv it st v hv
  · rcases hvin : v.vin.value with _ | vin
    · rw [update_no_vin iv it st v hv hvin]
      exact update_no_vin iv it st v hv hvin
    · cases hig : iv.contains vin
      · rw [update_run iv it st v vin hv hvin hig]
        obtain ⟨hA, hB, _⟩ := foldl_capPass_main it v vin capSpecs (st, [])
          (by exact hinv) (capSpecs_pairwise vin)
        set r := List.foldl (capPass it v vin) (st, []) capSpecs with hr
        by_cases hempty : r.2.isEmpty = true
        · rw [if_pos hempty]
          rw [update_run iv it r.1 v vin hv hvin hig]
          rw [foldl_capPass_skip_all it v vin capSpecs r.1 [] hB]
          rfl
        · rw [if_neg hempty]
          rw [update_run iv it { r.1 with notifyCalls := r.1.notifyCalls + 1 } v vin
            hv hvin hig]
          have hB2 : ∀ spec ∈ capSpecs,
              capSettled it v vin { r.1 with notifyCalls := r.1.notifyCalls + 1 } spec :=
            fun spec hmem => hB spec hmem
          rw [foldl_capPass_skip_all it v vin capSpecs
            { r.1 with notifyCalls := r.1.notifyCalls + 1 } [] hB2]
          rfl
      · rw [update_ignored iv it st v vin hv hvin hig]
        exact update_ignored iv it st v vin hv hvin hig

/-! ### Claim C4 -/

/-- C4: starting from a store satisfying its own invariants (the counter
strictly dominates every recorded aid, distinct keys carry distinct aids),
a second reconciliation pass over the same unchanged vehicle snapshot
performs zero installations and leaves the full bridge state exactly as
after the first pass; consequently the state after passes 2..N equals the
state after pass 1. -/
theorem c4_reconciliation_idempotent :
    ∀ (iv it : List String) (st : BridgeFull) (v : Vehicle),
      FullStoreInv st →
      (update iv it (update iv it st v).1 v).1 = (update iv it st v).1 ∧
      (update iv it (update iv it st v).1 v).2 = [] ∧
      (∀ n : Nat, 1 ≤ n → iterPasses iv it v st n = iterPasses iv it v st 1) := by
  intro iv it st v hinv
  have hmain := update_pass_settles iv it st v hinv
  refine ⟨by rw [hmain], by rw [hmain], ?_⟩
  intro n hn
  induction n with
  | zero => exact absurd hn (by omega)
  | succ m ih =>
    by_cases hm : 1 ≤ m
    · have hprev := ih hm
      show (update iv it (iterPasses iv it v st m) v).1 = iterPasses iv it v st 1
      rw [hprev]
      show (update iv it (update iv it st v).1 v).1 = (update iv it st v).1
      rw [hmain]
    · have hm0 : m = 0 := by omega
      subst hm0
      rfl

/-- C4 witness: idempotence of the Scenario A pass over the fresh store. -/
theorem c4_reconciliation_idempotent_witness :
    (update [] [] (update [] [] freshBridge climVehicle).1 climVehicle).1
      = (update [] [] freshBridge climVehicle).1 :=
  (c4_reconciliation_idempotent [] [] freshBridge climVehicle
    ⟨storeAidInv_nil 100, storeAidInj_nil 100⟩).1

end CCHomekit
